import Mathlib

/-!
# Verification of the Kai chess engine core

A shallow embedding, in Lean 4, of the Rust sources of the Kai chess engine
(`types.rs`, `bitboard.rs`, `magic.rs`, `zobrist.rs`, `position.rs`,
`moves.rs`, `movegen.rs`, `make_move.rs`, `see.rs`, `eval.rs`,
`ordering.rs`, `qsearch.rs`, `tt.rs`, `search.rs`, `uci.rs`), together with
theorems that settle the specification claims about that code.

Conventions of the embedding:
* machine integers are modelled as `Nat` (unsigned) or `Int` (signed), with
  explicit wrapping (`% 2 ^ w`) exactly where the Rust release build wraps;
* `u64` bitboards are `Nat` values kept `< 2 ^ 64` by masking on shifts;
* fallible operations return `Option`/`Except`; a Rust panic (out-of-bounds
  index) is modelled as `Option.none`;
* arrays are Lean `List`s in index order, state mutation is explicit state
  passing, and functions keep the Rust names.
-/

namespace Kai

set_option maxRecDepth 100000

/-- The 64-bit mask `u64::MAX`. -/
def U64MAX : Nat := 2 ^ 64 - 1

/-- Wrap a natural number to 64 bits (`u64` arithmetic). -/
def wrap64 (x : Nat) : Nat := x % 2 ^ 64

/-- `u64` left shift: the result is truncated to 64 bits. -/
def shl64 (x n : Nat) : Nat := wrap64 (x <<< n)

/-- `u64` bitwise not: `!x`. -/
def not64 (x : Nat) : Nat := U64MAX ^^^ x

/-- Cast an `i32`-style integer to `i16` (two's-complement wrap, as the Rust
`as i16` cast does). -/
def asI16 (x : Int) : Int := (x + 2 ^ 15) % 2 ^ 16 - 2 ^ 15

/-- Wrap an integer to the `i16` range (release-mode overflow behaviour of
`i16` addition and subtraction). -/
def wrapI16 (x : Int) : Int := asI16 x

/-- Cast an `i32`-style integer to `i8` (two's-complement wrap). -/
def asI8 (x : Int) : Int := (x + 2 ^ 7) % 2 ^ 8 - 2 ^ 7

/-- Cast an `i8`-style value to `u8` (`as u8`, two's-complement wrap). -/
def i8AsU8 (x : Int) : Nat := (x % 256).toNat

/-- `u8` wrapping addition (release-mode `+` on `u8`). -/
def addU8 (x y : Nat) : Nat := (x + y) % 256

/-- `u8::wrapping_sub`. -/
def wrappingSubU8 (x y : Nat) : Nat := (x + 256 - y % 256) % 256

/-- `usize::next_power_of_two` (returns 1 for 0, as in Rust). -/
def nextPowerOfTwo (x : Nat) : Nat :=
  if x ≤ 1 then 1 else 2 ^ (Nat.log2 (x - 1) + 1)

/-! ## `types.rs` -/

/-- `Color` (`types.rs`): {White = 0, Black = 1}. -/
inductive Color where
  | white
  | black
deriving DecidableEq, Repr

/-- `Color as usize`. -/
def Color.index : Color → Nat
  | .white => 0
  | .black => 1

/-- `Color::flip` (`types.rs`). -/
def Color.flip : Color → Color
  | .white => .black
  | .black => .white

/-- `PieceType` (`types.rs`): {Pawn = 0, .., King = 5}. -/
inductive PieceType where
  | pawn
  | knight
  | bishop
  | rook
  | queen
  | king
deriving DecidableEq, Repr

/-- `PieceType as usize`. -/
def PieceType.index : PieceType → Nat
  | .pawn => 0
  | .knight => 1
  | .bishop => 2
  | .rook => 3
  | .queen => 4
  | .king => 5

/-- Inverse of `PieceType::index`, for the `From<u8>` transmute in
`types.rs`.  Values ≥ 6 are undefined behaviour in the source and never
occur on constructed pieces; they are mapped to `pawn` here. -/
def PieceType.fromIndex : Nat → PieceType
  | 0 => .pawn
  | 1 => .knight
  | 2 => .bishop
  | 3 => .rook
  | 4 => .queen
  | 5 => .king
  | _ => .pawn

/-- The iteration order `[Pawn, Knight, Bishop, Rook, Queen, King]` used by
`compute_hash` and `find_lva`. -/
def pieceTypeList : List PieceType :=
  [.pawn, .knight, .bishop, .rook, .queen, .king]

/-- `PieceType::from_char` (`types.rs`); the char is lower-cased first. -/
def PieceType.fromChar (c : Char) : Option PieceType :=
  match c.toLower with
  | 'p' => some .pawn
  | 'n' => some .knight
  | 'b' => some .bishop
  | 'r' => some .rook
  | 'q' => some .queen
  | 'k' => some .king
  | _ => none

/-- `PieceType::to_char` (`types.rs`). -/
def PieceType.toChar : PieceType → Char
  | .pawn => 'p'
  | .knight => 'n'
  | .bishop => 'b'
  | .rook => 'r'
  | .queen => 'q'
  | .king => 'k'

/-- `Piece` (`types.rs`): a `u8` packing `color (bit 3) | piece_type (bits
0-2)`. -/
abbrev Piece : Type := Nat

/-- `Piece::new` (`types.rs`): `(color << 3) | piece_type`. -/
def Piece.new (c : Color) (pt : PieceType) : Piece :=
  (c.index <<< 3) ||| pt.index

/-- `Piece::color` (`types.rs`): tests bit 3. -/
def Piece.color (p : Piece) : Color :=
  if p &&& 8 == 0 then .white else .black

/-- `Piece::piece_type` (`types.rs`): transmute of `p & 7`. -/
def Piece.piece_type (p : Piece) : PieceType := PieceType.fromIndex (p &&& 7)

/-- `Piece::from_char` (`types.rs`). -/
def Piece.fromChar (c : Char) : Option Piece :=
  match PieceType.fromChar c with
  | none => none
  | some pt =>
    let color : Color := if c.isUpper then .white else .black
    some (Piece.new color pt)

/-- `Piece::to_char` (`types.rs`). -/
def Piece.toChar (p : Piece) : Char :=
  let c := p.piece_type.toChar
  if p.color = Color.white then c.toUpper else c

/-- `Square` (`types.rs`): a `u8` in 0..=63 in little-endian rank-file
layout; we keep the raw `u8` value as a `Nat`. -/
abbrev Square : Type := Nat

/-- `Square::file`: `sq & 7`. -/
def Square.file (sq : Square) : Nat := sq &&& 7

/-- `Square::rank`: `sq >> 3`. -/
def Square.rank (sq : Square) : Nat := sq >>> 3

/-- `Square::flip_rank`: `sq ^ 56`. -/
def Square.flip_rank (sq : Square) : Square := sq ^^^ 56

/-- `Square::from_coords`: `rank * 8 + file`. -/
def Square.from_coords (file rank : Nat) : Square := rank * 8 + file

/-- `Square::from_algebraic` (`types.rs`): parses e.g. `"e4"`; uses
`wrapping_sub` on the byte values exactly as the source does. -/
def Square.from_algebraic (s : List Char) : Option Square :=
  match s with
  | c0 :: c1 :: _ =>
    let file := wrappingSubU8 c0.toNat 97
    let rank := wrappingSubU8 c1.toNat 49
    if file < 8 ∧ rank < 8 then some (Square.from_coords file rank) else none
  | _ => none

/-- `Square::to_algebraic` (`types.rs`). -/
def Square.to_algebraic (sq : Square) : List Char :=
  [Char.ofNat (97 + sq.file), Char.ofNat (49 + sq.rank)]

/-- `CastlingRights` (`types.rs`): a 4-bit set {WK=1, WQ=2, BK=4, BQ=8},
kept as its raw `u8` value. -/
abbrev CastlingRights : Type := Nat

/-- `CastlingRights::contains`: `(self & other) == other`. -/
def CastlingRights.contains (a b : CastlingRights) : Bool := a &&& b == b

/-- `CastlingRights::kingside` (`types.rs`). -/
def CastlingRights.kingside : Color → CastlingRights
  | .white => 1
  | .black => 4

/-- `CastlingRights::queenside` (`types.rs`). -/
def CastlingRights.queenside : Color → CastlingRights
  | .white => 2
  | .black => 8

/-- Loop body of `CastlingRights::from_fen`, mirroring the `for` loop with
its `break` on `'-'`. -/
def CastlingRights.fromFenGo : List Char → CastlingRights → CastlingRights
  | [], acc => acc
  | c :: rest, acc =>
    match c with
    | 'K' => fromFenGo rest (acc ||| 1)
    | 'Q' => fromFenGo rest (acc ||| 2)
    | 'k' => fromFenGo rest (acc ||| 4)
    | 'q' => fromFenGo rest (acc ||| 8)
    | '-' => acc
    | _ => fromFenGo rest acc

/-- `CastlingRights::from_fen` (`types.rs`): inserts a bit per letter and
stops at `'-'`; other characters are ignored. -/
def CastlingRights.from_fen (s : List Char) : CastlingRights :=
  CastlingRights.fromFenGo s 0

/-- `CastlingRights::to_fen` (`types.rs`). -/
def CastlingRights.to_fen (r : CastlingRights) : List Char :=
  if r == 0 then ['-']
  else
    (if CastlingRights.contains r 1 then ['K'] else []) ++
    (if CastlingRights.contains r 2 then ['Q'] else []) ++
    (if CastlingRights.contains r 4 then ['k'] else []) ++
    (if CastlingRights.contains r 8 then ['q'] else [])

/-! ## `moves.rs`: the 16-bit move encoding -/

/-- `Move` (`moves.rs`): a `u16` packing `from (bits 0-5) | to (bits 6-11)
| flags (bits 12-15)`, kept as the raw value. -/
abbrev Move : Type := Nat

/-- `Move::NULL`: the all-zero word. -/
def Move.NULL : Move := 0

/-- `Move::new` (`moves.rs`): `from | (to << 6) | (flags << 12)`. -/
def Move.new (fromSq toSq : Square) (flags : Nat) : Move :=
  fromSq ||| (toSq <<< 6) ||| (flags <<< 12)

/-- `Move::quiet` (flag `0b0000`). -/
def Move.quiet (fromSq toSq : Square) : Move := Move.new fromSq toSq 0

/-- `Move::double_push` (flag `0b0001`). -/
def Move.double_push (fromSq toSq : Square) : Move := Move.new fromSq toSq 1

/-- `Move::king_castle` (flag `0b0010`). -/
def Move.king_castle (fromSq toSq : Square) : Move := Move.new fromSq toSq 2

/-- `Move::queen_castle` (flag `0b0011`). -/
def Move.queen_castle (fromSq toSq : Square) : Move := Move.new fromSq toSq 3

/-- `Move::capture` (flag `0b0100`). -/
def Move.capture (fromSq toSq : Square) : Move := Move.new fromSq toSq 4

/-- `Move::en_passant` (flag `0b0101`). -/
def Move.en_passant (fromSq toSq : Square) : Move := Move.new fromSq toSq 5

/-- `Move::promotion` (`moves.rs`): base flag `0b1000 + piece`, `+4` when a
capture. -/
def Move.promotion (fromSq toSq : Square) (pt : PieceType) (isCapture : Bool) : Move :=
  let base : Nat :=
    match pt with
    | .knight => 8
    | .bishop => 9
    | .rook => 10
    | _ => 11
  Move.new fromSq toSq (if isCapture then base + 4 else base)

/-- `Move::from_sq`: bits 0-5. -/
def Move.from_sq (m : Move) : Square := m &&& 0x3F

/-- `Move::to_sq`: bits 6-11. -/
def Move.to_sq (m : Move) : Square := (m >>> 6) &&& 0x3F

/-- `Move::flags`: bits 12-15. -/
def Move.flags (m : Move) : Nat := m >>> 12

/-- `Move::is_capture`: flag bit `0b0100`. -/
def Move.is_capture (m : Move) : Bool := m.flags &&& 4 != 0

/-- `Move::is_promotion`: flag bit `0b1000`. -/
def Move.is_promotion (m : Move) : Bool := m.flags &&& 8 != 0

/-- `Move::is_tactical`: capture or promotion. -/
def Move.is_tactical (m : Move) : Bool := m.flags &&& 12 != 0

/-- `Move::is_castle`. -/
def Move.is_castle (m : Move) : Bool := m.flags == 2 || m.flags == 3

/-- `Move::is_kingside_castle`. -/
def Move.is_kingside_castle (m : Move) : Bool := m.flags == 2

/-- `Move::is_queenside_castle`. -/
def Move.is_queenside_castle (m : Move) : Bool := m.flags == 3

/-- `Move::is_double_push`. -/
def Move.is_double_push (m : Move) : Bool := m.flags == 1

/-- `Move::is_en_passant`. -/
def Move.is_en_passant (m : Move) : Bool := m.flags == 5

/-- `Move::is_null`: the raw word is zero. -/
def Move.is_null (m : Move) : Bool := m == 0

/-- `Move::promotion_piece` (`moves.rs`): decodes the low two flag bits. -/
def Move.promotion_piece (m : Move) : PieceType :=
  match m.flags &&& 3 with
  | 0 => .knight
  | 1 => .bishop
  | 2 => .rook
  | _ => .queen

/-! ## `moves.rs`: the bounded `MoveList` (claim C10)

The search itself (below) threads plain `List (Move × Int)` values for move
lists, which is the pure-functional image of pushing into a `MoveList`
buffer and reading it back in order; the bounded structure here models the
`MoveList` type itself, whose 256-entry capacity claim C10 is about. -/

/-- `MAX_MOVES` (`moves.rs`). -/
def MAX_MOVES : Nat := 256

/-- `MoveList` (`moves.rs`): a 256-entry move buffer with a parallel score
array and a length.  The two `List`s always have length 256, mirroring the
fixed-size arrays. -/
structure MoveList where
  moves : List Move
  scores : List Int
  len : Nat
deriving DecidableEq, Repr

/-- `MoveList::new`: both arrays zero-filled, length 0. -/
def MoveList.new : MoveList :=
  { moves := List.replicate MAX_MOVES Move.NULL
    scores := List.replicate MAX_MOVES 0
    len := 0 }

/-- `MoveList::push` (`moves.rs`): writes `self.moves[self.len] = mv` and
increments `len`.  The array index panics when `len ≥ 256` (the
`debug_assert!` is compiled out in release builds but the bounds check on
the array access is not); the panic is modelled as `none`. -/
def MoveList.push (l : MoveList) (mv : Move) : Option MoveList :=
  if l.len < MAX_MOVES then
    some { l with moves := l.moves.set l.len mv, len := l.len + 1 }
  else
    none

/-- `MoveList::push_scored` (`moves.rs`): as `push` but also writes the
score at the same index. -/
def MoveList.push_scored (l : MoveList) (mv : Move) (score : Int) : Option MoveList :=
  if l.len < MAX_MOVES then
    some { l with
            moves := l.moves.set l.len mv
            scores := l.scores.set l.len score
            len := l.len + 1 }
  else
    none

/-- `MoveList::get` (`moves.rs`): indexed read of the move array. -/
def MoveList.get (l : MoveList) (i : Nat) : Move := l.moves.getD i Move.NULL

/-! ## `bitboard.rs`: bitboards and the precomputed leaper/ray tables

A bitboard is a `u64`, modelled as a `Nat` kept below `2 ^ 64`. -/

/-- `Bitboard::FILE_A`. -/
def FILE_A : Nat := 0x0101010101010101

/-- `Bitboard::FILE_B`. -/
def FILE_B : Nat := 0x0202020202020202

/-- `Bitboard::FILE_G`. -/
def FILE_G : Nat := 0x4040404040404040

/-- `Bitboard::FILE_H`. -/
def FILE_H : Nat := 0x8080808080808080

/-- `Bitboard::FILES` (`bitboard.rs`). -/
def FILES : List Nat :=
  [FILE_A, FILE_B, 0x0404040404040404, 0x0808080808080808,
   0x1010101010101010, 0x2020202020202020, FILE_G, FILE_H]

/-- `Bitboard::RANKS` (`bitboard.rs`). -/
def RANKS : List Nat :=
  [0xFF, 0xFF00, 0xFF0000, 0xFF000000, 0xFF00000000, 0xFF0000000000,
   0xFF000000000000, 0xFF00000000000000]

/-- `Bitboard::RANK_2`. -/
def RANK_2 : Nat := 0xFF00

/-- `Bitboard::RANK_3`. -/
def RANK_3 : Nat := 0xFF0000

/-- `Bitboard::RANK_6`. -/
def RANK_6 : Nat := 0xFF0000000000

/-- `Bitboard::RANK_7`. -/
def RANK_7 : Nat := 0xFF000000000000

/-- `Bitboard::NOT_FILE_A`. -/
def NOT_FILE_A : Nat := not64 FILE_A

/-- `Bitboard::NOT_FILE_H`. -/
def NOT_FILE_H : Nat := not64 FILE_H

/-- `Bitboard::NOT_FILE_AB`. -/
def NOT_FILE_AB : Nat := not64 (FILE_A ||| FILE_B)

/-- `Bitboard::NOT_FILE_GH`. -/
def NOT_FILE_GH : Nat := not64 (FILE_G ||| FILE_H)

/-- `Bitboard::contains`: `(bb & (1 << sq)) != 0`. -/
def bbContains (bb : Nat) (sq : Square) : Bool := bb &&& (1 <<< sq) != 0

/-- `Bitboard::set`: `bb | (1 << sq)`. -/
def bbSet (bb : Nat) (sq : Square) : Nat := bb ||| (1 <<< sq)

/-- `Bitboard::clear`: `bb & !(1 << sq)`. -/
def bbClear (bb : Nat) (sq : Square) : Nat := bb &&& not64 (1 <<< sq)

/-- `Bitboard::is_empty`. -/
def bbIsEmpty (bb : Nat) : Bool := bb == 0

/-- `Bitboard::lsb`: `trailing_zeros` (64 for the empty board). -/
def bbLsb (bb : Nat) : Square :=
  ((List.range 64).find? (fun i => bb.testBit i)).getD 64

/-- `Bitboard::exactly_one`: `bb != 0 && bb & (bb - 1) == 0`. -/
def bbExactlyOne (bb : Nat) : Bool := bb != 0 && bb &&& (bb - 1) == 0

/-- `Bitboard::more_than_one`: `bb != 0 && bb & (bb - 1) != 0`. -/
def bbMoreThanOne (bb : Nat) : Bool := bb != 0 && bb &&& (bb - 1) != 0

/-- `Bitboard::pop_count`. -/
def bbPopCount (bb : Nat) : Nat := ((List.range 64).filter (fun i => bb.testBit i)).length

/-- The square sequence produced by the `Iterator` of `bitboard.rs`
(`pop_lsb` until empty): the set squares in increasing index order. -/
def bbToList (bb : Nat) : List Square :=
  (List.range 64).filter (fun i => bb.testBit i)

/-- `Bitboard::north`: `bb << 8` (truncated to 64 bits). -/
def bbNorth (bb : Nat) : Nat := shl64 bb 8

/-- `Bitboard::south`: `bb >> 8`. -/
def bbSouth (bb : Nat) : Nat := bb >>> 8

/-- `Bitboard::north_east`: `(bb << 9) & NOT_FILE_A`. -/
def bbNorthEast (bb : Nat) : Nat := shl64 bb 9 &&& NOT_FILE_A

/-- `Bitboard::north_west`: `(bb << 7) & NOT_FILE_H`. -/
def bbNorthWest (bb : Nat) : Nat := shl64 bb 7 &&& NOT_FILE_H

/-- `Bitboard::south_east`: `(bb >> 7) & NOT_FILE_A`. -/
def bbSouthEast (bb : Nat) : Nat := (bb >>> 7) &&& NOT_FILE_A

/-- `Bitboard::south_west`: `(bb >> 9) & NOT_FILE_H`. -/
def bbSouthWest (bb : Nat) : Nat := (bb >>> 9) &&& NOT_FILE_H

/-- `Bitboard::pawn_push`: north for White, south for Black. -/
def bbPawnPush (bb : Nat) : Color → Nat
  | .white => bbNorth bb
  | .black => bbSouth bb

/-- `Bitboard::adjacent_files` (`bitboard.rs`). -/
def bbAdjacentFiles (bb : Nat) : Nat :=
  ((bb &&& NOT_FILE_A) >>> 1) ||| shl64 (bb &&& NOT_FILE_H) 1

/-- `init_knight_attacks` (`bitboard.rs`), evaluated at one square.  The
table entry is the value of this expression; note that the `<< 10`, `<< 6`,
`>> 10` and `>> 6` arms AND with the *complement* of `NOT_FILE_GH` /
`NOT_FILE_AB` exactly as the source does. -/
def knight_attacks (sq : Square) : Nat :=
  let bb := 1 <<< sq
  (shl64 bb 17 &&& not64 FILE_A) |||
  (shl64 bb 15 &&& not64 FILE_H) |||
  (shl64 bb 10 &&& not64 NOT_FILE_GH) |||
  (shl64 bb 6 &&& not64 NOT_FILE_AB) |||
  ((bb >>> 17) &&& not64 FILE_H) |||
  ((bb >>> 15) &&& not64 FILE_A) |||
  ((bb >>> 10) &&& not64 NOT_FILE_AB) |||
  ((bb >>> 6) &&& not64 NOT_FILE_GH)

/-- `init_king_attacks` (`bitboard.rs`), evaluated at one square. -/
def king_attacks (sq : Square) : Nat :=
  let bb := 1 <<< sq
  shl64 bb 8 ||| (bb >>> 8) |||
  (shl64 bb 1 &&& not64 FILE_A) |||
  ((bb >>> 1) &&& not64 FILE_H) |||
  (shl64 bb 9 &&& not64 FILE_A) |||
  (shl64 bb 7 &&& not64 FILE_H) |||
  ((bb >>> 7) &&& not64 FILE_A) |||
  ((bb >>> 9) &&& not64 FILE_H)

/-- `init_pawn_attacks` (`bitboard.rs`), evaluated at one square. -/
def pawn_attacks (c : Color) (sq : Square) : Nat :=
  let bb := 1 <<< sq
  match c with
  | .white => (shl64 bb 9 &&& not64 FILE_A) ||| (shl64 bb 7 &&& not64 FILE_H)
  | .black => ((bb >>> 7) &&& not64 FILE_A) ||| ((bb >>> 9) &&& not64 FILE_H)

/-- Sign of an integer (`i8::signum`). -/
def isign (x : Int) : Int := if 0 < x then 1 else if x < 0 then -1 else 0

/-- `abs_diff` (`bitboard.rs`). -/
def abs_diff (a b : Nat) : Nat := if a > b then a - b else b - a

/-- Whether two squares lie on a common rank, file or diagonal — the guard
of `init_between` / `init_line` (`bitboard.rs`). -/
def sameLine (sq1 sq2 : Square) : Bool :=
  let f1 := sq1 &&& 7
  let r1 := sq1 >>> 3
  let f2 := sq2 &&& 7
  let r2 := sq2 >>> 3
  f1 == f2 || r1 == r2 || abs_diff f1 f2 == abs_diff r1 r2

/-- The inner walk of `init_between`: step from `(f, r)` toward `(f2, r2)`
collecting squares strictly before the endpoint.  The fuel (8 suffices on a
board walk) stands in for the `while` loop. -/
def betweenWalk : Nat → Int → Int → Int → Int → Int → Int → Nat
  | 0, _, _, _, _, _, _ => 0
  | fuel + 1, f, r, f2, r2, df, dr =>
    if f == f2 && r == r2 then 0
    else (1 <<< (r * 8 + f).toNat) ||| betweenWalk fuel (f + df) (r + dr) f2 r2 df dr

/-- `BETWEEN[sq1][sq2]` (`init_between`, `bitboard.rs`): the squares
strictly between two aligned squares, empty otherwise. -/
def between (sq1 sq2 : Square) : Nat :=
  if sq1 == sq2 then 0
  else if sameLine sq1 sq2 then
    let f1 : Int := (sq1 &&& 7 : Nat)
    let r1 : Int := (sq1 >>> 3 : Nat)
    let f2 : Int := (sq2 &&& 7 : Nat)
    let r2 : Int := (sq2 >>> 3 : Nat)
    let df := isign (f2 - f1)
    let dr := isign (r2 - r1)
    betweenWalk 8 (f1 + df) (r1 + dr) f2 r2 df dr
  else 0

/-- The directional walk of `init_line`: collect squares from `(f, r)` in
direction `(df, dr)` until leaving the board. -/
def lineWalk : Nat → Int → Int → Int → Int → Nat
  | 0, _, _, _, _ => 0
  | fuel + 1, f, r, df, dr =>
    if 0 ≤ f && f < 8 && 0 ≤ r && r < 8 then
      (1 <<< (r * 8 + f).toNat) ||| lineWalk fuel (f + df) (r + dr) df dr
    else 0

/-- `LINE[sq1][sq2]` (`init_line`, `bitboard.rs`): all squares of the full
ray through two aligned squares, empty otherwise. -/
def line (sq1 sq2 : Square) : Nat :=
  if sq1 == sq2 then 0
  else if sameLine sq1 sq2 then
    let f1 : Int := (sq1 &&& 7 : Nat)
    let r1 : Int := (sq1 >>> 3 : Nat)
    let f2 : Int := (sq2 &&& 7 : Nat)
    let r2 : Int := (sq2 >>> 3 : Nat)
    let df := isign (f2 - f1)
    let dr := isign (r2 - r1)
    lineWalk 8 f1 r1 (-df) (-dr) ||| lineWalk 8 (f1 + df) (r1 + dr) df dr
  else 0

/-- `aligned` (`bitboard.rs`): `LINE[sq1][sq2].contains(sq3)`. -/
def aligned (sq1 sq2 sq3 : Square) : Bool := bbContains (line sq1 sq2) sq3

/-! ## `magic.rs`: sliding-piece attacks

`rook_attacks` / `bishop_attacks` index perfect-hash tables whose entries
are written by `init_rook_attacks` / `init_bishop_attacks` as
`slow_rook_attacks(sq, occupied & mask)` / `slow_bishop_attacks(sq,
occupied & mask)` for every blocker subset of the relevant mask.  The
embedding uses that defining value directly: the magic multiplication is
the memoisation scheme, not the semantics. -/

/-- One ray of `slow_rook_attacks`/`slow_bishop_attacks`: visit the listed
squares in order, setting each and stopping at the first occupied one. -/
def rayFold (occ : Nat) : List Square → Nat
  | [] => 0
  | s :: rest =>
    (1 <<< s) ||| (if bbContains occ s then 0 else rayFold occ rest)

/-- The squares of a ray from `(f, r)` in direction `(df, dr)`, in walk
order, staying on the board. -/
def raySquares (fuel : Nat) (f r df dr : Int) : List Square :=
  match fuel with
  | 0 => []
  | fuel + 1 =>
    if 0 ≤ f && f < 8 && 0 ≤ r && r < 8 then
      (r * 8 + f).toNat :: raySquares fuel (f + df) (r + dr) df dr
    else []

/-- `slow_rook_attacks` (`magic.rs`): ray walks north, south, east, west
from the square, each stopping at the first blocker (inclusive). -/
def slow_rook_attacks (sq : Square) (occ : Nat) : Nat :=
  let f : Int := (sq &&& 7 : Nat)
  let r : Int := (sq >>> 3 : Nat)
  rayFold occ (raySquares 8 f (r + 1) 0 1) |||
  rayFold occ (raySquares 8 f (r - 1) 0 (-1)) |||
  rayFold occ (raySquares 8 (f + 1) r 1 0) |||
  rayFold occ (raySquares 8 (f - 1) r (-1) 0)

/-- `slow_bishop_attacks` (`magic.rs`): the four diagonal rays. -/
def slow_bishop_attacks (sq : Square) (occ : Nat) : Nat :=
  let f : Int := (sq &&& 7 : Nat)
  let r : Int := (sq >>> 3 : Nat)
  rayFold occ (raySquares 8 (f + 1) (r + 1) 1 1) |||
  rayFold occ (raySquares 8 (f - 1) (r + 1) (-1) 1) |||
  rayFold occ (raySquares 8 (f + 1) (r - 1) 1 (-1)) |||
  rayFold occ (raySquares 8 (f - 1) (r - 1) (-1) (-1))

/-- `rook_mask` (`magic.rs`): the interior of the rook rays (edges and the
square itself excluded). -/
def rook_mask (sq : Square) : Nat :=
  let file := sq &&& 7
  let rank := sq >>> 3
  ((List.range 8).filter (fun r => 1 ≤ r ∧ r < 7 ∧ r ≠ rank)).foldl
    (fun m r => m ||| (1 <<< (r * 8 + file))) 0 |||
  ((List.range 8).filter (fun f => 1 ≤ f ∧ f < 7 ∧ f ≠ file)).foldl
    (fun m f => m ||| (1 <<< (rank * 8 + f))) 0

/-- The diagonal interior walk of `bishop_mask`: collect squares while
strictly inside the edge frame. -/
def maskWalk : Nat → Int → Int → Int → Int → Nat
  | 0, _, _, _, _ => 0
  | fuel + 1, f, r, df, dr =>
    if 0 < f && f < 7 && 0 < r && r < 7 then
      (1 <<< (r * 8 + f).toNat) ||| maskWalk fuel (f + df) (r + dr) df dr
    else 0

/-- The strict interior of the diagonal rays: what `bishop_mask`
(`magic.rs`) was evidently meant to compute and what the per-square
`BISHOP_BITS` table sizing assumes.  The source's `const fn` differs: its
NW, SE and SW loops test `f < 7` (under `u8` wrapping) but never `f > 0`
or `r > 0`, so they also take in each ray's terminal edge square —
`bishop_mask_src` below is that faithful mask, and the compiled attack
table is built from it (`bishop_table_src`). -/
def bishop_mask (sq : Square) : Nat :=
  let f : Int := (sq &&& 7 : Nat)
  let r : Int := (sq >>> 3 : Nat)
  maskWalk 8 (f + 1) (r + 1) 1 1 |||
  maskWalk 8 (f - 1) (r + 1) (-1) 1 |||
  maskWalk 8 (f + 1) (r - 1) 1 (-1) |||
  maskWalk 8 (f - 1) (r - 1) (-1) (-1)

/-- `rook_attacks` (`magic.rs`): table lookup whose stored value is the
slow ray trace on `occupied & rook_mask sq`. -/
def rook_attacks (sq : Square) (occupied : Nat) : Nat :=
  slow_rook_attacks sq (occupied &&& rook_mask sq)

/-- `bishop_attacks` (`magic.rs`) idealized: the value a collision-free
magic table would return, i.e. the slow ray trace on
`occupied & bishop_mask sq`.  Because `bishop_mask_src` has more bits than
`BISHOP_BITS` budgets for, the real compiled table *is not* collision-free
on 12 queenside squares (c3, b4, c4, d4, b5, c5, b6, c6, b7, c7, b8, c8);
`bishop_attacks_tbl` below reproduces the real table, and claim C4's
theorem exhibits the difference.  This idealized form agrees with the real
table on the other 52 squares, and every concrete evaluation below other
than C4's runs on positions whose diagonal-slider bitboards make the two
indistinguishable (the result is ANDed against an empty bitboard). -/
def bishop_attacks (sq : Square) (occupied : Nat) : Nat :=
  slow_bishop_attacks sq (occupied &&& bishop_mask sq)

/-- `BISHOP_BITS` (`magic.rs`): index width budgeted per square. -/
def BISHOP_BITS : List Nat :=
  [6, 5, 5, 5, 5, 5, 5, 6,
   5, 5, 5, 5, 5, 5, 5, 5,
   5, 5, 7, 7, 7, 7, 5, 5,
   5, 5, 7, 9, 9, 7, 5, 5,
   5, 5, 7, 9, 9, 7, 5, 5,
   5, 5, 7, 7, 7, 7, 5, 5,
   5, 5, 5, 5, 5, 5, 5, 5,
   6, 5, 5, 5, 5, 5, 5, 6]

/-- `BISHOP_MAGIC_NUMBERS` (`magic.rs`). -/
def BISHOP_MAGIC_NUMBERS : List Nat :=
  [0x0002020202020200, 0x0002020202020000, 0x0004010202000000, 0x0004040080000000,
   0x0001104000000000, 0x0000821040000000, 0x0000410410400000, 0x0000104104104000,
   0x0000040404040400, 0x0000020202020200, 0x0000040102020000, 0x0000040400800000,
   0x0000011040000000, 0x0000008210400000, 0x0000004104104000, 0x0000002082082000,
   0x0004000808080800, 0x0002000404040400, 0x0001000202020200, 0x0000800802004000,
   0x0000800400A00000, 0x0000200100884000, 0x0000400082082000, 0x0000200041041000,
   0x0002080010101000, 0x0001040008080800, 0x0000208004010400, 0x0000404004010200,
   0x0000840000802000, 0x0000404002011000, 0x0000808001041000, 0x0000404000820800,
   0x0001041000202000, 0x0000820800101000, 0x0000104400080800, 0x0000020080080080,
   0x0000404040040100, 0x0000808100020100, 0x0001010100020800, 0x0000808080010400,
   0x0000820820004000, 0x0000410410002000, 0x0000082088001000, 0x0000002011000800,
   0x0000080100400400, 0x0001010101000200, 0x0002020202000400, 0x0001010101000200,
   0x0000410410400000, 0x0000208208200000, 0x0000002084100000, 0x0000000020880000,
   0x0000001002020000, 0x0000040408020000, 0x0004040404040000, 0x0002020202020000,
   0x0000104104104000, 0x0000002082082000, 0x0000000020841000, 0x0000000000208800,
   0x0000000010020200, 0x0000000404080200, 0x0000040404040400, 0x0002020202020200]

/-- The NE loop of the source `bishop_mask`: `while f < 7 && r < 7`
(interior only; fuel 8 exceeds the at most 6 iterations). -/
def bmNE : Nat → Nat → Nat → Nat
  | 0, _, _ => 0
  | fuel + 1, f, r =>
    if f < 7 ∧ r < 7 then (1 <<< (r * 8 + f)) ||| bmNE fuel (f + 1) (r + 1) else 0

/-- The NW loop of the source `bishop_mask`: `f` counts down with `u8`
wrapping and the guard `f < 7 && r < 7 && f < 8` never tests `f > 0`, so
the a-file terminal square is taken in before `f` wraps to 255. -/
def bmNW : Nat → Nat → Nat → Nat
  | 0, _, _ => 0
  | fuel + 1, f, r =>
    if f < 7 ∧ r < 7 ∧ f < 8 then
      (1 <<< (r * 8 + f)) ||| bmNW fuel (wrappingSubU8 f 1) (r + 1)
    else 0

/-- The SE loop of the source `bishop_mask`: `r` counts down with `u8`
wrapping and the guard never tests `r > 0`, so the rank-1 terminal square
is taken in. -/
def bmSE : Nat → Nat → Nat → Nat
  | 0, _, _ => 0
  | fuel + 1, f, r =>
    if f < 7 ∧ r < 7 ∧ r < 8 then
      (1 <<< (r * 8 + f)) ||| bmSE fuel (f + 1) (wrappingSubU8 r 1)
    else 0

/-- The SW loop of the source `bishop_mask`: both counters wrap and the
guard tests neither `f > 0` nor `r > 0`, so the first edge terminal is
taken in. -/
def bmSW : Nat → Nat → Nat → Nat
  | 0, _, _ => 0
  | fuel + 1, f, r =>
    if f < 7 ∧ r < 7 ∧ f < 8 ∧ r < 8 then
      (1 <<< (r * 8 + f)) ||| bmSW fuel (wrappingSubU8 f 1) (wrappingSubU8 r 1)
    else 0

/-- `bishop_mask` (`magic.rs`) exactly as the source `const fn` computes
it, wrapping `u8` counters included: on 61 squares it has up to three more
bits than the strict interior `bishop_mask` above. -/
def bishop_mask_src (sq : Square) : Nat :=
  let file := sq &&& 7
  let rank := sq >>> 3
  bmNE 8 (file + 1) (rank + 1) |||
  bmNW 8 (wrappingSubU8 file 1) (rank + 1) |||
  bmSE 8 (file + 1) (wrappingSubU8 rank 1) |||
  bmSW 8 (wrappingSubU8 file 1) (wrappingSubU8 rank 1)

/-- `magic_index` (`magic.rs`): `(blockers.wrapping_mul(magic)) >> shift`. -/
def magic_index (blockers magic shift : Nat) : Nat :=
  wrap64 (blockers * magic) >>> shift

/-- `index_to_occupancy` (`magic.rs`): spread the index bits over the mask
bits in LSB-first order (`pop_lsb` until the mask empties; fuel 64 exceeds
any pop count). -/
def index_to_occupancy_go : Nat → Nat → Nat → Nat → Nat
  | 0, _, _, _ => 0
  | fuel + 1, index, mask, i =>
    if mask == 0 then 0
    else
      let sq := bbLsb mask
      (if index &&& (1 <<< i) != 0 then (1 <<< sq) else 0) |||
        index_to_occupancy_go fuel index (mask &&& (mask - 1)) (i + 1)

/-- `index_to_occupancy` (`magic.rs`). -/
def index_to_occupancy (index mask : Nat) : Nat :=
  index_to_occupancy_go 64 index mask 0

/-- The segment of the compiled `BISHOP_ATTACKS` table belonging to `sq`,
exactly as `init_bishop_attacks` (`magic.rs`) fills it: all
`2 ^ popcount(mask)` occupancy subsets of the (oversized) source mask are
hashed into `2 ^ BISHOP_BITS[sq]` slots in index order, later writes
overwriting earlier ones.  Wherever `popcount(mask) > BISHOP_BITS[sq]`
the writes collide and the surviving entries are wrong for most
occupancies. -/
def bishop_table_src (sq : Square) : List Nat :=
  let mask := bishop_mask_src sq
  let bits := BISHOP_BITS.getD sq 0
  let magic := BISHOP_MAGIC_NUMBERS.getD sq 0
  let n := bbPopCount mask
  (List.range (1 <<< n)).foldl
    (fun tbl i =>
      let occupied := index_to_occupancy i mask
      tbl.set (magic_index occupied magic (64 - bits)) (slow_bishop_attacks sq occupied))
    (List.replicate (1 <<< bits) 0)

/-- `bishop_attacks` (`magic.rs`) exactly as the compiled program executes
it: mask with the source mask, hash with the magic, and read the surviving
table entry. -/
def bishop_attacks_tbl (sq : Square) (occupied : Nat) : Nat :=
  let mask := bishop_mask_src sq
  let bits := BISHOP_BITS.getD sq 0
  let magic := BISHOP_MAGIC_NUMBERS.getD sq 0
  (bishop_table_src sq).getD (magic_index (occupied &&& mask) magic (64 - bits)) 0

/-! ## `zobrist.rs` -/

/-- `xorshift64` (`zobrist.rs`), on 64-bit words. -/
def xorshift64 (x : Nat) : Nat :=
  let x := x ^^^ shl64 x 13
  let x := x ^^^ (x >>> 7)
  x ^^^ shl64 x 17

/-- The PRNG state after `n` steps from the fixed seed
`0x1234567890ABCDEF` (`Zobrist::new`). -/
def zobristState (n : Nat) : Nat :=
  Nat.rec 0x1234567890ABCDEF (fun _ st => xorshift64 st) n

/-- `Zobrist::piece_key` (`zobrist.rs`): keys are drawn in color-major,
piece-type-major, square order, so the key for `(color, piece, sq)` is PRNG
state number `color*384 + piece*64 + sq + 1`. -/
def piece_key (c : Color) (pt : PieceType) (sq : Square) : Nat :=
  zobristState (c.index * 384 + pt.index * 64 + sq + 1)

/-- `Zobrist::castling_key` (`zobrist.rs`): drawn after the 768 piece
keys. -/
def castling_key (rights : CastlingRights) : Nat :=
  zobristState (768 + rights + 1)

/-- `Zobrist::en_passant_key` (`zobrist.rs`): drawn after the castling
keys; indexed by file. -/
def en_passant_key (file : Nat) : Nat :=
  zobristState (784 + file + 1)

/-- `Zobrist::side_key` (`zobrist.rs`): the last key drawn. -/
def side_key : Nat := zobristState 793

/-! ## `position.rs`: the `Position` struct and its observers -/

/-- `Position` (`position.rs`).  Arrays become `List`s in index order:
`pieces` is `[[P,N,B,R,Q,K] for White, same for Black]`, `occupied` and
`king_sq` are two-element lists, `board` is the 64-entry mailbox. -/
structure Position where
  pieces : List (List Nat)
  occupied : List Nat
  all_occupied : Nat
  board : List (Option Piece)
  side_to_move : Color
  castling : CastlingRights
  en_passant : Option Square
  halfmove_clock : Nat
  fullmove_number : Nat
  hash : Nat
  king_sq : List Square
  checkers : Nat
deriving DecidableEq, Repr

/-- `Position::empty` (`position.rs`). -/
def Position.empty : Position :=
  { pieces := [[0, 0, 0, 0, 0, 0], [0, 0, 0, 0, 0, 0]]
    occupied := [0, 0]
    all_occupied := 0
    board := List.replicate 64 none
    side_to_move := .white
    castling := 0
    en_passant := none
    halfmove_clock := 0
    fullmove_number := 1
    hash := 0
    king_sq := [4, 60]
    checkers := 0 }

/-- `Position::piece_bb`: `self.pieces[color][piece_type]`. -/
def Position.piece_bb (p : Position) (c : Color) (pt : PieceType) : Nat :=
  (p.pieces.getD c.index []).getD pt.index 0

/-- Write one piece bitboard (the `self.pieces[c][pt] = ..` assignments). -/
def Position.setPieceBB (p : Position) (c : Color) (pt : PieceType) (bb : Nat) : Position :=
  { p with pieces := p.pieces.set c.index ((p.pieces.getD c.index []).set pt.index bb) }

/-- Read `self.occupied[color]`. -/
def Position.occupiedOf (p : Position) (c : Color) : Nat := p.occupied.getD c.index 0

/-- Write `self.occupied[color]`. -/
def Position.setOccupied (p : Position) (c : Color) (bb : Nat) : Position :=
  { p with occupied := p.occupied.set c.index bb }

/-- Read the mailbox: `self.board[sq]` (`Position::piece_at`). -/
def Position.piece_at (p : Position) (sq : Square) : Option Piece :=
  p.board.getD sq none

/-- Read `self.king_sq[color]`. -/
def Position.kingSqOf (p : Position) (c : Color) : Square := p.king_sq.getD c.index 64

/-- `Position::is_in_check`: `checkers` non-empty. -/
def Position.is_in_check (p : Position) : Bool := p.checkers != 0

/-- `Position::diagonal_sliders`: bishops and queens of a color. -/
def Position.diagonal_sliders (p : Position) (c : Color) : Nat :=
  p.piece_bb c .bishop ||| p.piece_bb c .queen

/-- `Position::orthogonal_sliders`: rooks and queens of a color. -/
def Position.orthogonal_sliders (p : Position) (c : Color) : Nat :=
  p.piece_bb c .rook ||| p.piece_bb c .queen

/-- `Position::put_piece` (`position.rs`).  For `sq ≥ 64` the mailbox write
`self.board[sq] = ..` is an out-of-bounds array index and panics (in every
build profile); the panic is modelled as `none`. -/
def Position.put_piece (p : Position) (sq : Square) (piece : Piece) : Option Position :=
  if sq < 64 then
    let c := piece.color
    let pt := piece.piece_type
    let p := p.setPieceBB c pt (bbSet (p.piece_bb c pt) sq)
    let p := p.setOccupied c (bbSet (p.occupiedOf c) sq)
    let p := { p with all_occupied := bbSet p.all_occupied sq, board := p.board.set sq (some piece) }
    some (if pt = PieceType.king then { p with king_sq := p.king_sq.set c.index sq } else p)
  else
    none

/-- `Position::attackers_to` (`position.rs`): all pieces of both colors
attacking `sq` under a custom occupancy. -/
def Position.attackers_to (p : Position) (sq : Square) (occupied : Nat) : Nat :=
  let knights := p.piece_bb .white .knight ||| p.piece_bb .black .knight
  let kings := p.piece_bb .white .king ||| p.piece_bb .black .king
  let diag := p.diagonal_sliders .white ||| p.diagonal_sliders .black
  let orth := p.orthogonal_sliders .white ||| p.orthogonal_sliders .black
  let wp := p.piece_bb .white .pawn
  let bp := p.piece_bb .black .pawn
  (pawn_attacks .black sq &&& wp) |||
  (pawn_attacks .white sq &&& bp) |||
  (knight_attacks sq &&& knights) |||
  (king_attacks sq &&& kings) |||
  (bishop_attacks sq occupied &&& diag) |||
  (rook_attacks sq occupied &&& orth)

/-- `Position::attackers_to_by` (`position.rs`): attackers of one color. -/
def Position.attackers_to_by (p : Position) (sq : Square) (c : Color) (occupied : Nat) : Nat :=
  let pawns := p.piece_bb c .pawn
  let knights := p.piece_bb c .knight
  let bishops := p.piece_bb c .bishop
  let rooks := p.piece_bb c .rook
  let queens := p.piece_bb c .queen
  let kings := p.piece_bb c .king
  (pawn_attacks c.flip sq &&& pawns) |||
  (knight_attacks sq &&& knights) |||
  (bishop_attacks sq occupied &&& (bishops ||| queens)) |||
  (rook_attacks sq occupied &&& (rooks ||| queens)) |||
  (king_attacks sq &&& kings)

/-- `Position::is_attacked_by` (`position.rs`). -/
def Position.is_attacked_by (p : Position) (sq : Square) (c : Color) : Bool :=
  p.attackers_to_by sq c p.all_occupied != 0

/-- `Position::compute_checkers` (`position.rs`): opposing attackers of the
side-to-move's king. -/
def Position.compute_checkers (p : Position) : Nat :=
  p.attackers_to_by (p.kingSqOf p.side_to_move) p.side_to_move.flip p.all_occupied

/-- `Position::compute_hash` (`position.rs`): XOR of the piece keys over
every set bit of every piece bitboard (in `pop_lsb`, i.e. ascending square,
order), then the castling key, the en-passant file key when set, and the
side key when Black is to move. -/
def Position.compute_hash (p : Position) : Nat :=
  let h := [Color.white, Color.black].foldl
    (fun h c => pieceTypeList.foldl
      (fun h pt => (bbToList (p.piece_bb c pt)).foldl
        (fun h sq => h ^^^ piece_key c pt sq) h) h) 0
  let h := h ^^^ castling_key p.castling
  let h := match p.en_passant with
    | some ep => h ^^^ en_passant_key ep.file
    | none => h
  if p.side_to_move = Color.black then h ^^^ side_key else h

/-- `Position::pinned_pieces` (`position.rs`). -/
def Position.pinned_pieces (p : Position) (c : Color) : Nat :=
  let ksq := p.kingSqOf c
  let them := c.flip
  let ours := p.occupiedOf c
  let diagAtt := bishop_attacks ksq (p.occupiedOf them) &&& p.diagonal_sliders them
  let pinned := (bbToList diagAtt).foldl
    (fun pinned a =>
      let bet := between ksq a &&& p.all_occupied
      if bbExactlyOne bet then pinned ||| (bet &&& ours) else pinned) 0
  let orthAtt := rook_attacks ksq (p.occupiedOf them) &&& p.orthogonal_sliders them
  (bbToList orthAtt).foldl
    (fun pinned a =>
      let bet := between ksq a &&& p.all_occupied
      if bbExactlyOne bet then pinned ||| (bet &&& ours) else pinned) pinned

/-! ## `position.rs`: FEN input and output -/

/-- `str::split_whitespace`, on character lists: maximal runs of
non-whitespace characters. -/
def splitWhitespace (s : List Char) : List (List Char) :=
  let step := fun (acc : List (List Char) × List Char) (c : Char) =>
    if c.isWhitespace then
      (if acc.2.isEmpty then acc.1 else acc.1 ++ [acc.2.reverse], [])
    else (acc.1, c :: acc.2)
  let acc := s.foldl step ([], [])
  if acc.2.isEmpty then acc.1 else acc.1 ++ [acc.2.reverse]

/-- The digit-run core of `str::parse` for unsigned integers: at least one
character, all ASCII digits, value within `bound`. -/
def parseUIntCore (s : List Char) (bound : Nat) : Option Nat :=
  if s.isEmpty ∨ ¬ s.all Char.isDigit then none
  else
    let v := s.foldl (fun acc c => acc * 10 + (c.toNat - 48)) 0
    if v ≤ bound then some v else none

/-- `str::parse::<u8>` (an optional leading `'+'` is accepted by Rust). -/
def parseU8 (s : List Char) : Option Nat :=
  match s with
  | '+' :: rest => parseUIntCore rest 255
  | _ => parseUIntCore s 255

/-- `str::parse::<u16>`. -/
def parseU16 (s : List Char) : Option Nat :=
  match s with
  | '+' :: rest => parseUIntCore rest 65535
  | _ => parseUIntCore s 65535

/-- The piece-placement loop of `Position::from_fen` (`position.rs`),
threading the board cursor `sq : u8` (wrapping arithmetic, as in release
builds).  `none` models the out-of-bounds panic inside `put_piece`. -/
def fenPlacement : List Char → Position → Nat → Option (Except String Position)
  | [], p, _ => some (Except.ok p)
  | c :: rest, p, sq =>
    if c == '/' then
      fenPlacement rest p (wrappingSubU8 sq 16)
    else if '1' ≤ c && c ≤ '8' then
      fenPlacement rest p (addU8 sq (c.toNat - 48))
    else
      match Piece.fromChar c with
      | some piece =>
        match p.put_piece sq piece with
        | some p' => fenPlacement rest p' (addU8 sq 1)
        | none => none
      | none => some (Except.error "Invalid piece character in FEN")

/-- `Position::from_fen` (`position.rs`).  The outer `Option` layer models
a panic escaping `from_fen` (it aborts instead of returning), the `Except`
layer is the `Result` the function returns. -/
def from_fen (fen : List Char) : Option (Except String Position) :=
  let parts := splitWhitespace fen
  if parts.isEmpty then some (Except.error "Empty FEN string")
  else
    match fenPlacement (parts.getD 0 []) Position.empty 56 with
    | none => none
    | some (Except.error e) => some (Except.error e)
    | some (Except.ok p) =>
      let sideResult : Except String Color :=
        if parts.length > 1 then
          match parts.getD 1 [] with
          | ['w'] => Except.ok Color.white
          | ['b'] => Except.ok Color.black
          | _ => Except.error "Invalid side to move"
        else Except.ok p.side_to_move
      match sideResult with
      | Except.error e => some (Except.error e)
      | Except.ok stm =>
        let p := { p with side_to_move := stm }
        let p := if parts.length > 2 then
            { p with castling := CastlingRights.from_fen (parts.getD 2 []) }
          else p
        let p := if parts.length > 3 && parts.getD 3 [] != ['-'] then
            { p with en_passant := Square.from_algebraic (parts.getD 3 []) }
          else p
        let p := if parts.length > 4 then
            { p with halfmove_clock := (parseU8 (parts.getD 4 [])).getD 0 }
          else p
        let p := if parts.length > 5 then
            { p with fullmove_number := (parseU16 (parts.getD 5 [])).getD 1 }
          else p
        let p := { p with hash := p.compute_hash }
        let p := { p with checkers := p.compute_checkers }
        some (Except.ok p)

/-- One rank of `Position::to_fen`'s placement output: walk the files
carrying the empty-square run length, flushing it before each piece and at
the end of the rank. -/
def fenRankChars (board : List (Option Piece)) (rank : Nat) : List Char :=
  let step := fun (acc : List Char × Nat) (file : Nat) =>
    match board.getD (Square.from_coords file rank) none with
    | some piece =>
      (acc.1 ++ (if acc.2 > 0 then [Char.ofNat (48 + acc.2)] else []) ++ [piece.toChar], 0)
    | none => (acc.1, acc.2 + 1)
  let acc := (List.range 8).foldl step ([], 0)
  acc.1 ++ (if acc.2 > 0 then [Char.ofNat (48 + acc.2)] else [])

/-- `Position::to_fen` (`position.rs`): placement (ranks 8 down to 1,
slash-separated), side, castling, en passant, halfmove clock, fullmove
number. -/
def to_fen (p : Position) : List Char :=
  let placement := ((List.range 8).reverse.map (fenRankChars p.board)).intersperse ['/']
  placement.foldl (· ++ ·) [] ++
  [' '] ++ (match p.side_to_move with | .white => ['w'] | .black => ['b']) ++
  [' '] ++ CastlingRights.to_fen p.castling ++
  [' '] ++ (match p.en_passant with
            | some sq => sq.to_algebraic
            | none => ['-']) ++
  [' '] ++ Nat.toDigits 10 p.halfmove_clock ++
  [' '] ++ Nat.toDigits 10 p.fullmove_number

/-! ## `make_move.rs` -/

/-- `CASTLING_RIGHTS_UPDATE` (`make_move.rs`): per-square masks ANDed into
the castling rights for both the source and destination square. -/
def CASTLING_RIGHTS_UPDATE (sq : Square) : Nat :=
  if sq == 0 then 0x0D
  else if sq == 4 then 0x0C
  else if sq == 7 then 0x0E
  else if sq == 56 then 0x07
  else if sq == 60 then 0x03
  else if sq == 63 then 0x0B
  else 0x0F

/-- `Position::remove_piece_internal` (`make_move.rs`): clears the piece in
the bitboards and the mailbox and XORs its key out of the hash.  Note that
the hash key is XORed unconditionally, whether or not the bit was set. -/
def Position.remove_piece_internal (p : Position) (sq : Square) (c : Color) (pt : PieceType) : Position :=
  let p := p.setPieceBB c pt (bbClear (p.piece_bb c pt) sq)
  let p := p.setOccupied c (bbClear (p.occupiedOf c) sq)
  { p with
      all_occupied := bbClear p.all_occupied sq
      board := p.board.set sq none
      hash := p.hash ^^^ piece_key c pt sq }

/-- `Position::put_piece_internal` (`make_move.rs`): sets the piece in the
bitboards and the mailbox, refreshes the king-square cache, and XORs its
key into the hash. -/
def Position.put_piece_internal (p : Position) (sq : Square) (c : Color) (pt : PieceType) : Position :=
  let p := p.setPieceBB c pt (bbSet (p.piece_bb c pt) sq)
  let p := p.setOccupied c (bbSet (p.occupiedOf c) sq)
  let p := { p with
              all_occupied := bbSet p.all_occupied sq
              board := p.board.set sq (some (Piece.new c pt)) }
  let p := if pt = PieceType.king then { p with king_sq := p.king_sq.set c.index sq } else p
  { p with hash := p.hash ^^^ piece_key c pt sq }

set_option maxHeartbeats 1000000 in
/-- `Position::apply_move` (`make_move.rs`), written over an explicit input
state.  The `expect("No piece at source square")` aborts only when the
mailbox is empty at the source; that case is modelled by treating the
mailbox entry as absent and is never reached from generated moves, so we
use the piece (or a pawn placeholder for the impossible case, which keeps
the function total exactly on the inputs on which the source is defined). -/
def Position.apply_move (p : Position) (mv : Move) : Position :=
  let us := p.side_to_move
  let them := us.flip
  let fromSq := mv.from_sq
  let toSq := mv.to_sq
  let piece := (p.piece_at fromSq).getD (Piece.new us PieceType.pawn)
  let piece_type := piece.piece_type
  -- (a) XOR out any existing en-passant file key; clear en passant.
  let p := match p.en_passant with
    | some ep => { p with hash := p.hash ^^^ en_passant_key ep.file }
    | none => p
  let p := { p with en_passant := none }
  -- (b) captures (en-passant victim sits behind the destination square).
  let p :=
    if mv.is_en_passant then
      let captured_sq := i8AsU8 ((toSq : Int) + (if us = Color.white then -8 else 8))
      p.remove_piece_internal captured_sq them PieceType.pawn
    else if mv.is_capture then
      match p.piece_at toSq with
      | some cp => p.remove_piece_internal toSq them cp.piece_type
      | none => p
    else p
  -- (c) move the piece, promoting if needed.
  let p := p.remove_piece_internal fromSq us piece_type
  let final_piece_type := if mv.is_promotion then mv.promotion_piece else piece_type
  let p := p.put_piece_internal toSq us final_piece_type
  -- (d) castling also moves the rook.
  let p :=
    if mv.is_castle then
      let rookFromTo :=
        if mv.is_kingside_castle then
          match us with | .white => (7, 5) | .black => (63, 61)
        else
          match us with | .white => (0, 3) | .black => (56, 59)
      let p := p.remove_piece_internal rookFromTo.1 us PieceType.rook
      p.put_piece_internal rookFromTo.2 us PieceType.rook
    else p
  -- (e) castling rights via the update table; re-key the hash on change.
  let old_castling := p.castling
  let p := { p with castling := p.castling &&& CASTLING_RIGHTS_UPDATE fromSq &&& CASTLING_RIGHTS_UPDATE toSq }
  let p := if p.castling != old_castling then
      { p with hash := p.hash ^^^ castling_key old_castling ^^^ castling_key p.castling }
    else p
  -- (f) double pushes set the en-passant square and key its file in.
  let p :=
    if mv.is_double_push then
      let ep := i8AsU8 ((fromSq : Int) + (if us = Color.white then 8 else -8))
      { p with en_passant := some ep, hash := p.hash ^^^ en_passant_key (Square.file ep) }
    else p
  -- (g) halfmove clock (u8, wrapping increment in release builds).
  let p :=
    if mv.is_capture || piece_type = PieceType.pawn then
      { p with halfmove_clock := 0 }
    else { p with halfmove_clock := addU8 p.halfmove_clock 1 }
  -- (h) fullmove number.
  let p := if us = Color.black then { p with fullmove_number := (p.fullmove_number + 1) % 65536 } else p
  -- (i) flip side to move; XOR the side key.
  let p := { p with side_to_move := them, hash := p.hash ^^^ side_key }
  -- (j) recompute checkers.
  { p with checkers := p.compute_checkers }

/-- `Position::make_move` (`make_move.rs`): copy then `apply_move`. -/
def Position.make_move (p : Position) (mv : Move) : Position := p.apply_move mv

/-- `Position::make_null_move` (`make_move.rs`). -/
def Position.make_null_move (p : Position) : Position :=
  let p := match p.en_passant with
    | some ep => { p with hash := p.hash ^^^ en_passant_key ep.file }
    | none => p
  let p := { p with en_passant := none }
  let p := { p with side_to_move := p.side_to_move.flip, hash := p.hash ^^^ side_key }
  { p with checkers := p.compute_checkers }

/-! ## `movegen.rs`

The Rust generators push into a `MoveList` buffer; the embedding returns
the pushed moves as a `List Move` in push order. -/

/-- `Position::is_ep_legal` (`movegen.rs`): removes the capturing pawn from
its source and the captured pawn from behind the destination, puts the
capturing pawn *on* the destination, and checks that no enemy rook/queen or
bishop/queen then attacks the king. -/
def Position.is_ep_legal (p : Position) (fromSq ep_sq : Square) : Bool :=
  let us := p.side_to_move
  let them := us.flip
  let king_sq := p.kingSqOf us
  let captured_sq := i8AsU8 ((ep_sq : Int) + (if us = Color.white then -8 else 8))
  let occupied := bbSet (bbClear (bbClear p.all_occupied fromSq) captured_sq) ep_sq
  let rookAtt := rook_attacks king_sq occupied
  let bishopAtt := bishop_attacks king_sq occupied
  let enemy_rooks := p.orthogonal_sliders them
  let enemy_bishops := p.diagonal_sliders them
  rookAtt &&& enemy_rooks == 0 && bishopAtt &&& enemy_bishops == 0

/-- `Position::is_ep_legal` exactly as the compiled program executes it:
identical to `is_ep_legal` above except that the bishop lookup goes
through the collision-corrupted compiled table (`bishop_attacks_tbl`)
instead of the ideal ray trace.  (The rook table initializes without
collisions, so the rook lookup is already exact.) -/
def Position.is_ep_legal_tbl (p : Position) (fromSq ep_sq : Square) : Bool :=
  let us := p.side_to_move
  let them := us.flip
  let king_sq := p.kingSqOf us
  let captured_sq := i8AsU8 ((ep_sq : Int) + (if us = Color.white then -8 else 8))
  let occupied := bbSet (bbClear (bbClear p.all_occupied fromSq) captured_sq) ep_sq
  let rookAtt := rook_attacks king_sq occupied
  let bishopAtt := bishop_attacks_tbl king_sq occupied
  let enemy_rooks := p.orthogonal_sliders them
  let enemy_bishops := p.diagonal_sliders them
  rookAtt &&& enemy_rooks == 0 && bishopAtt &&& enemy_bishops == 0

/-- `Position::add_promotions` (`movegen.rs`): queen, rook, bishop, knight
promotion variants, in that push order. -/
def add_promotions (fromSq toSq : Square) (is_capture : Bool) : List Move :=
  [Move.promotion fromSq toSq .queen is_capture,
   Move.promotion fromSq toSq .rook is_capture,
   Move.promotion fromSq toSq .bishop is_capture,
   Move.promotion fromSq toSq .knight is_capture]

/-- The pin filter used by every pawn sub-pipeline: the move is kept when
the source is not pinned or stays on the line to the king. -/
def pawnPinOk (pinned : Nat) (fromSq toSq king_sq : Square) : Bool :=
  !bbContains pinned fromSq || aligned fromSq toSq king_sq

/-- `Position::generate_pawn_moves` (`movegen.rs`): single pushes, double
pushes, promotion pushes, left/right captures, promotion captures, then en
passant, in source order. -/
def Position.generate_pawn_moves (p : Position) (target pinned : Nat) (king_sq : Square) : List Move :=
  let us := p.side_to_move
  let them := us.flip
  let pawns := p.piece_bb us .pawn
  let their_pieces := p.occupiedOf them
  let empty := not64 p.all_occupied
  let push_dir : Int := match us with | .white => 8 | .black => -8
  let promo_rank := match us with | .white => RANK_7 | .black => RANK_2
  let promo_pawns := pawns &&& promo_rank
  let non_promo_pawns := pawns &&& not64 promo_rank
  let single_push := bbPawnPush non_promo_pawns us &&& empty
  let singles := (bbToList (single_push &&& target)).filterMap (fun (toSq : Square) =>
    let fromSq := i8AsU8 ((toSq : Int) - push_dir)
    if pawnPinOk pinned fromSq toSq king_sq then some (Move.quiet fromSq toSq) else none)
  let double_push :=
    bbPawnPush (single_push &&& (match us with | .white => RANK_3 | .black => RANK_6)) us
      &&& empty &&& target
  let doubles := (bbToList double_push).filterMap (fun (toSq : Square) =>
    let fromSq := i8AsU8 ((toSq : Int) - 2 * push_dir)
    if pawnPinOk pinned fromSq toSq king_sq then some (Move.double_push fromSq toSq) else none)
  let promo_push := bbPawnPush promo_pawns us &&& empty &&& target
  let promoPushes := (bbToList promo_push).flatMap (fun (toSq : Square) =>
    let fromSq := i8AsU8 ((toSq : Int) - push_dir)
    if pawnPinOk pinned fromSq toSq king_sq then add_promotions fromSq toSq false else [])
  let capture_target := their_pieces &&& target
  let left_captures :=
    (match us with | .white => bbNorthWest non_promo_pawns | .black => bbSouthWest non_promo_pawns)
      &&& capture_target
  let lefts := (bbToList left_captures).filterMap (fun (toSq : Square) =>
    let fromSq := i8AsU8 ((toSq : Int) - push_dir + 1)
    if pawnPinOk pinned fromSq toSq king_sq then some (Move.capture fromSq toSq) else none)
  let right_captures :=
    (match us with | .white => bbNorthEast non_promo_pawns | .black => bbSouthEast non_promo_pawns)
      &&& capture_target
  let rights := (bbToList right_captures).filterMap (fun (toSq : Square) =>
    let fromSq := i8AsU8 ((toSq : Int) - push_dir - 1)
    if pawnPinOk pinned fromSq toSq king_sq then some (Move.capture fromSq toSq) else none)
  let promo_left :=
    (match us with | .white => bbNorthWest promo_pawns | .black => bbSouthWest promo_pawns)
      &&& their_pieces &&& target
  let promoLefts := (bbToList promo_left).flatMap (fun (toSq : Square) =>
    let fromSq := i8AsU8 ((toSq : Int) - push_dir + 1)
    if pawnPinOk pinned fromSq toSq king_sq then add_promotions fromSq toSq true else [])
  let promo_right :=
    (match us with | .white => bbNorthEast promo_pawns | .black => bbSouthEast promo_pawns)
      &&& their_pieces &&& target
  let promoRights := (bbToList promo_right).flatMap (fun (toSq : Square) =>
    let fromSq := i8AsU8 ((toSq : Int) - push_dir - 1)
    if pawnPinOk pinned fromSq toSq king_sq then add_promotions fromSq toSq true else [])
  let eps := match p.en_passant with
    | some ep_sq =>
      (bbToList (pawn_attacks them ep_sq &&& pawns)).filterMap (fun (fromSq : Square) =>
        if p.is_ep_legal fromSq ep_sq then some (Move.en_passant fromSq ep_sq) else none)
    | none => []
  singles ++ doubles ++ promoPushes ++ lefts ++ rights ++ promoLefts ++ promoRights ++ eps

/-- The capture/quiet emission pattern shared by the knight, bishop, rook
and queen loops of `generate_moves`: captures first, then quiets. -/
def pieceMovesFrom (fromSq : Square) (attacks their_pieces empty : Nat) : List Move :=
  (bbToList (attacks &&& their_pieces)).map (Move.capture fromSq) ++
  (bbToList (attacks &&& empty)).map (Move.quiet fromSq)

/-- `Position::generate_king_moves` (`movegen.rs`): for each destination
not occupied by a friend, check attack with the king removed from the
occupancy. -/
def Position.generate_king_moves (p : Position) : List Move :=
  let us := p.side_to_move
  let them := us.flip
  let king_sq := p.kingSqOf us
  let their_pieces := p.occupiedOf them
  let attacks := king_attacks king_sq &&& not64 (p.occupiedOf us)
  (bbToList attacks).filterMap (fun (toSq : Square) =>
    let occupied_without_king := bbClear p.all_occupied king_sq
    if p.attackers_to_by toSq them occupied_without_king == 0 then
      some (if bbContains their_pieces toSq then Move.capture king_sq toSq
            else Move.quiet king_sq toSq)
    else none)

/-- `Position::generate_castling` (`movegen.rs`). -/
def Position.generate_castling (p : Position) : List Move :=
  let us := p.side_to_move
  let them := us.flip
  let parms : Square × Square × Square × Nat × Nat × Nat × Nat :=
    match us with
    | .white => (4, 6, 2, 0x60, 0x0E, 0x60, 0x0C)
    | .black => (60, 62, 58, 0x6000000000000000, 0x0E00000000000000,
                 0x6000000000000000, 0x0C00000000000000)
  let (king_sq, ks_target, qs_target, ks_path, qs_path, ks_check_path, qs_check_path) := parms
  let anyAttacked := fun (squares : Nat) => (bbToList squares).any (fun s => p.is_attacked_by s them)
  let ks :=
    if CastlingRights.contains p.castling (CastlingRights.kingside us) &&
       p.all_occupied &&& ks_path == 0 &&
       !p.is_attacked_by king_sq them && !anyAttacked ks_check_path then
      [Move.king_castle king_sq ks_target]
    else []
  let qs :=
    if CastlingRights.contains p.castling (CastlingRights.queenside us) &&
       p.all_occupied &&& qs_path == 0 &&
       !p.is_attacked_by king_sq them && !anyAttacked qs_check_path then
      [Move.queen_castle king_sq qs_target]
    else []
  ks ++ qs

/-- `Position::generate_moves::<EVASIONS>` (`movegen.rs`): pawns, knights,
bishops, rooks, queens, king moves, then castling (suppressed in evasion
mode); in evasion mode non-king targets are restricted to blocking or
capturing the single checker. -/
def Position.generate_moves (p : Position) (evasions : Bool) : List Move :=
  let us := p.side_to_move
  let them := us.flip
  let our_pieces := p.occupiedOf us
  let their_pieces := p.occupiedOf them
  let empty := not64 p.all_occupied
  let target :=
    if evasions then
      let checker_sq := bbLsb p.checkers
      let king_sq := p.kingSqOf us
      between king_sq checker_sq ||| p.checkers
    else not64 our_pieces
  let pinned := p.pinned_pieces us
  let king_sq := p.kingSqOf us
  let pawnMoves := p.generate_pawn_moves target pinned king_sq
  let knightMoves := (bbToList (p.piece_bb us .knight &&& not64 pinned)).flatMap (fun (fromSq : Square) =>
    pieceMovesFrom fromSq (knight_attacks fromSq &&& target) their_pieces empty)
  let bishopMoves := (bbToList (p.piece_bb us .bishop)).flatMap (fun (fromSq : Square) =>
    let attacks := bishop_attacks fromSq p.all_occupied &&& target
    let attacks := if bbContains pinned fromSq then attacks &&& line fromSq king_sq else attacks
    pieceMovesFrom fromSq attacks their_pieces empty)
  let rookMoves := (bbToList (p.piece_bb us .rook)).flatMap (fun (fromSq : Square) =>
    let attacks := rook_attacks fromSq p.all_occupied &&& target
    let attacks := if bbContains pinned fromSq then attacks &&& line fromSq king_sq else attacks
    pieceMovesFrom fromSq attacks their_pieces empty)
  let queenMoves := (bbToList (p.piece_bb us .queen)).flatMap (fun (fromSq : Square) =>
    let attacks := (bishop_attacks fromSq p.all_occupied ||| rook_attacks fromSq p.all_occupied) &&& target
    let attacks := if bbContains pinned fromSq then attacks &&& line fromSq king_sq else attacks
    pieceMovesFrom fromSq attacks their_pieces empty)
  pawnMoves ++ knightMoves ++ bishopMoves ++ rookMoves ++ queenMoves ++
    p.generate_king_moves ++ (if evasions then [] else p.generate_castling)

/-- `Position::generate_legal_moves` (`movegen.rs`): dispatch on the
checker count (the trailing runtime diagnostic loop prints warnings only
and does not change the list). -/
def Position.generate_legal_moves (p : Position) : List Move :=
  if p.checkers == 0 then p.generate_moves false
  else if bbExactlyOne p.checkers then p.generate_moves true
  else p.generate_king_moves

/-- `Position::is_legal` (`movegen.rs`): the post-filter used by
quiescence for pseudo-legal captures. -/
def Position.is_legal (p : Position) (mv : Move) : Bool :=
  let us := p.side_to_move
  let them := us.flip
  let fromSq := mv.from_sq
  let toSq := mv.to_sq
  let king_sq := p.kingSqOf us
  if fromSq == king_sq then
    if mv.is_castle then true
    else
      let occupied_without_king := bbClear p.all_occupied fromSq
      p.attackers_to_by toSq them occupied_without_king == 0
  else if mv.is_en_passant then
    p.is_ep_legal fromSq toSq
  else
    let pinned := p.pinned_pieces us
    if bbContains pinned fromSq then aligned fromSq toSq king_sq
    else if p.checkers != 0 then
      let checker_sq := bbLsb p.checkers
      let block_mask := between king_sq checker_sq ||| p.checkers
      bbContains block_mask toSq
    else true

/-! ## `movegen.rs`: capture-only generation (used by quiescence) -/

/-- `Position::generate_pawn_captures` (`movegen.rs`): left/right captures,
promotion captures, promotion pushes, then en passant. -/
def Position.generate_pawn_captures (p : Position) (their_pieces : Nat) : List Move :=
  let us := p.side_to_move
  let them := us.flip
  let pawns := p.piece_bb us .pawn
  let push_dir : Int := match us with | .white => 8 | .black => -8
  let promo_rank := match us with | .white => RANK_7 | .black => RANK_2
  let promo_pawns := pawns &&& promo_rank
  let non_promo_pawns := pawns &&& not64 promo_rank
  let lefts := (bbToList ((match us with
      | .white => bbNorthWest non_promo_pawns
      | .black => bbSouthWest non_promo_pawns) &&& their_pieces)).map (fun (toSq : Square) =>
    Move.capture (i8AsU8 ((toSq : Int) - push_dir + 1)) toSq)
  let rights := (bbToList ((match us with
      | .white => bbNorthEast non_promo_pawns
      | .black => bbSouthEast non_promo_pawns) &&& their_pieces)).map (fun (toSq : Square) =>
    Move.capture (i8AsU8 ((toSq : Int) - push_dir - 1)) toSq)
  let promoLefts := (bbToList ((match us with
      | .white => bbNorthWest promo_pawns
      | .black => bbSouthWest promo_pawns) &&& their_pieces)).flatMap (fun (toSq : Square) =>
    add_promotions (i8AsU8 ((toSq : Int) - push_dir + 1)) toSq true)
  let promoRights := (bbToList ((match us with
      | .white => bbNorthEast promo_pawns
      | .black => bbSouthEast promo_pawns) &&& their_pieces)).flatMap (fun (toSq : Square) =>
    add_promotions (i8AsU8 ((toSq : Int) - push_dir - 1)) toSq true)
  let empty := not64 p.all_occupied
  let promoPushes := (bbToList (bbPawnPush promo_pawns us &&& empty)).flatMap (fun (toSq : Square) =>
    add_promotions (i8AsU8 ((toSq : Int) - push_dir)) toSq false)
  let eps := match p.en_passant with
    | some ep_sq =>
      (bbToList (pawn_attacks them ep_sq &&& pawns)).filterMap (fun (fromSq : Square) =>
        if p.is_ep_legal fromSq ep_sq then some (Move.en_passant fromSq ep_sq) else none)
    | none => []
  lefts ++ rights ++ promoLefts ++ promoRights ++ promoPushes ++ eps

/-- `Position::generate_captures` (`movegen.rs`): pawn captures, then
knight/bishop/rook/queen/king captures. -/
def Position.generate_captures (p : Position) : List Move :=
  let us := p.side_to_move
  let them := us.flip
  let their_pieces := p.occupiedOf them
  let pawnCaps := p.generate_pawn_captures their_pieces
  let knights := (bbToList (p.piece_bb us .knight)).flatMap (fun (fromSq : Square) =>
    (bbToList (knight_attacks fromSq &&& their_pieces)).map (Move.capture fromSq))
  let bishops := (bbToList (p.piece_bb us .bishop)).flatMap (fun (fromSq : Square) =>
    (bbToList (bishop_attacks fromSq p.all_occupied &&& their_pieces)).map (Move.capture fromSq))
  let rooks := (bbToList (p.piece_bb us .rook)).flatMap (fun (fromSq : Square) =>
    (bbToList (rook_attacks fromSq p.all_occupied &&& their_pieces)).map (Move.capture fromSq))
  let queens := (bbToList (p.piece_bb us .queen)).flatMap (fun (fromSq : Square) =>
    (bbToList ((bishop_attacks fromSq p.all_occupied ||| rook_attacks fromSq p.all_occupied)
      &&& their_pieces)).map (Move.capture fromSq))
  let king_sq := p.kingSqOf us
  let kingCaps := (bbToList (king_attacks king_sq &&& their_pieces)).map (Move.capture king_sq)
  pawnCaps ++ knights ++ bishops ++ rooks ++ queens ++ kingCaps

/-! ## `see.rs`: static exchange evaluation -/

/-- `SEE_VALUES` (`see.rs`). -/
def SEE_VALUES (pt : PieceType) : Int :=
  match pt with
  | .pawn => 100
  | .knight => 300
  | .bishop => 300
  | .rook => 500
  | .queen => 900
  | .king => 10000

/-- `see_piece_value` (`see.rs`). -/
def see_piece_value (pt : PieceType) : Int := SEE_VALUES pt

/-- `Position::diagonal_sliders_all` (`see.rs`). -/
def Position.diagonal_sliders_all (p : Position) : Nat :=
  p.diagonal_sliders .white ||| p.diagonal_sliders .black

/-- `Position::orthogonal_sliders_all` (`see.rs`). -/
def Position.orthogonal_sliders_all (p : Position) : Nat :=
  p.orthogonal_sliders .white ||| p.orthogonal_sliders .black

/-- `Position::find_lva` (`see.rs`): least valuable attacker, scanning
piece types from pawn upward; the `unreachable!` arm (no attacker) is
mapped to a dummy square-64 king. -/
def Position.find_lva (p : Position) (attackers : Nat) : Square × PieceType :=
  match pieceTypeList.find?
      (fun pt => (p.piece_bb .white pt ||| p.piece_bb .black pt) &&& attackers != 0) with
  | some pt => (bbLsb ((p.piece_bb .white pt ||| p.piece_bb .black pt) &&& attackers), pt)
  | none => (64, .king)

/-- The exchange loop of `see_ge` (`see.rs`): one recursion step per
capture in the exchange.  The fuel (66 is more than the number of set bits
the occupancy can hold) stands in for the loop; exhausting it behaves like
the loop's `break`, which is unreachable because every iteration clears one
bit of `occupied`.  The returned list extends the `gain` array. -/
def seeLoop (p : Position) (toSq : Square) (threshold : Int) :
    Nat → Nat → Nat → Color → List Int → Int → PieceType → List Int
  | 0, _, _, _, gain, _, _ => gain
  | fuel + 1, occupied, attackers, side, gain, prevGain, piece_on_sq =>
    let g := SEE_VALUES piece_on_sq - prevGain
    let gain := gain ++ [g]
    if max (-prevGain) g < threshold then gain
    else
      let stm_attackers := attackers &&& p.occupiedOf side
      if stm_attackers == 0 then gain
      else
        let lva := p.find_lva stm_attackers
        let attacker_sq := lva.1
        let attacker_type := lva.2
        let occupied := bbClear occupied attacker_sq
        let attackers := bbClear attackers attacker_sq
        let attackers :=
          if attacker_type = PieceType.pawn ∨ attacker_type = PieceType.bishop ∨
             attacker_type = PieceType.queen then
            attackers ||| (bishop_attacks toSq occupied &&& p.diagonal_sliders_all &&& occupied)
          else attackers
        let attackers :=
          if attacker_type = PieceType.rook ∨ attacker_type = PieceType.queen then
            attackers ||| (rook_attacks toSq occupied &&& p.orthogonal_sliders_all &&& occupied)
          else attackers
        seeLoop p toSq threshold fuel occupied attackers side.flip gain g attacker_type

/-- The backward negamax pass over the `gain` array at the end of `see_ge`:
`gain[depth-1] = -(-gain[depth-1]).max(gain[depth])` for `depth` from the
top down to 1, yielding the final `gain[0]`. -/
def seeUnwindGo : Int → List Int → Int
  | acc, [] => acc
  | acc, g :: rest => seeUnwindGo (-(max (-g) acc)) rest

/-- Dispatch of the unwind on the reversed gain array: the topmost entry is
dropped unused (the loop breaks right after writing it), the next becomes
the accumulator. -/
def seeUnwind (gain : List Int) : Int :=
  match gain.reverse with
  | [] => 0
  | [g] => g
  | _ :: gprev :: rest => seeUnwindGo gprev rest

/-- `Position::see_ge` (`see.rs`). -/
def Position.see_ge (p : Position) (mv : Move) (threshold : Int) : Bool :=
  let fromSq := mv.from_sq
  let toSq := mv.to_sq
  let valueResult : Option Int :=
    if mv.is_capture then
      if mv.is_en_passant then some (SEE_VALUES .pawn)
      else
        match p.piece_at toSq with
        | some captured => some (SEE_VALUES captured.piece_type)
        | none => none
    else some 0
  match valueResult with
  | none => false
  | some value0 =>
    let value := if mv.is_promotion then
        value0 + SEE_VALUES mv.promotion_piece - SEE_VALUES .pawn
      else value0
    match p.piece_at fromSq with
    | none => false
    | some attacker =>
      let attacker_value := SEE_VALUES attacker.piece_type
      if value - attacker_value ≥ threshold then true
      else
        let occupied := bbClear p.all_occupied fromSq
        let occupied :=
          if mv.is_en_passant then
            let us := p.side_to_move
            bbClear occupied (i8AsU8 ((toSq : Int) + (if us = Color.white then -8 else 8)))
          else occupied
        let attackers := p.attackers_to toSq occupied &&& occupied
        let gain := seeLoop p toSq threshold 66 occupied attackers p.side_to_move.flip
          [value] value attacker.piece_type
        seeUnwind gain ≥ threshold

/-! ## `eval.rs`: the tapered evaluation -/

/-- `Score` (`eval.rs`): paired midgame/endgame components. -/
structure EvalScore where
  mg : Int
  eg : Int
deriving DecidableEq, Repr

/-- Rust signed division (`/` on `i32`): truncation toward zero. -/
def rustDiv (a b : Int) : Int := Int.tdiv a b

/-- `PIECE_VALUES` (`eval.rs`). -/
def PIECE_VALUES (pt : PieceType) : EvalScore :=
  match pt with
  | .pawn => ⟨82, 94⟩
  | .knight => ⟨337, 281⟩
  | .bishop => ⟨365, 297⟩
  | .rook => ⟨477, 512⟩
  | .queen => ⟨1025, 936⟩
  | .king => ⟨0, 0⟩

/-- `PHASE_VALUES` (`eval.rs`). -/
def PHASE_VALUES (pt : PieceType) : Int :=
  match pt with
  | .pawn => 0 | .knight => 1 | .bishop => 1 | .rook => 2 | .queen => 4 | .king => 0

/-- `TOTAL_PHASE` (`eval.rs`). -/
def TOTAL_PHASE : Int := 24

/-- `PSQT_MG` (`eval.rs`): midgame piece-square tables, `[piece][square]`
as indexed by the source (White reads it by raw square index, Black
through `flip_rank`). -/
def PSQT_MG : List (List Int) :=

  [[0, 0, 0, 0, 0, 0, 0, 0,
    98, 134, 61, 95, 68, 126, 34, -11,
    -6, 7, 26, 31, 65, 56, 25, -20,
    -14, 13, 6, 21, 23, 12, 17, -23,
    -27, -2, -5, 12, 17, 6, 10, -25,
    -26, -4, -4, -10, 3, 3, 33, -12,
    -35, -1, -20, -23, -15, 24, 38, -22,
    0, 0, 0, 0, 0, 0, 0, 0],
   [-167, -89, -34, -49, 61, -97, -15, -107,
    -73, -41, 72, 36, 23, 62, 7, -17,
    -47, 60, 37, 65, 84, 129, 73, 44,
    -9, 17, 19, 53, 37, 69, 18, 22,
    -13, 4, 16, 13, 28, 19, 21, -8,
    -23, -9, 12, 10, 19, 17, 25, -16,
    -29, -53, -12, -3, -1, 18, -14, -19,
    -105, -21, -58, -33, -17, -28, -19, -23],
   [-29, 4, -82, -37, -25, -42, 7, -8,
    -26, 16, -18, -13, 30, 59, 18, -47,
    -16, 37, 43, 40, 35, 50, 37, -2,
    -4, 5, 19, 50, 37, 37, 7, -2,
    -6, 13, 13, 26, 34, 12, 10, 4,
    0, 15, 15, 15, 14, 27, 18, 10,
    4, 15, 16, 0, 7, 21, 33, 1,
    -33, -3, -14, -21, -13, -12, -39, -21],
   [32, 42, 32, 51, 63, 9, 31, 43,
    27, 32, 58, 62, 80, 67, 26, 44,
    -5, 19, 26, 36, 17, 45, 61, 16,
    -24, -11, 7, 26, 24, 35, -8, -20,
    -36, -26, -12, -1, 9, -7, 6, -23,
    -45, -25, -16, -17, 3, 0, -5, -33,
    -44, -16, -20, -9, -1, 11, -6, -71,
    -19, -13, 1, 17, 16, 7, -37, -26],
   [-28, 0, 29, 12, 59, 44, 43, 45,
    -24, -39, -5, 1, -16, 57, 28, 54,
    -13, -17, 7, 8, 29, 56, 47, 57,
    -27, -27, -16, -16, -1, 17, -2, 1,
    -9, -26, -9, -10, -2, -4, 3, -3,
    -14, 2, -11, -2, -5, 2, 14, 5,
    -35, -8, 11, 2, 8, 15, -3, 1,
    -1, -18, -9, 10, -15, -25, -31, -50],
   [-65, 23, 16, -15, -56, -34, 2, 13,
    29, -1, -20, -7, -8, -4, -38, -29,
    -9, 24, 2, -16, -20, 6, 22, -22,
    -17, -20, -12, -27, -30, -25, -14, -36,
    -49, -1, -27, -39, -46, -44, -33, -51,
    -14, -14, -22, -46, -44, -30, -15, -27,
    1, 7, -8, -64, -43, -16, 9, 8,
    -15, 36, 12, -54, 8, -28, 24, 14]]

/-- `PSQT_EG` (`eval.rs`): endgame piece-square tables. -/
def PSQT_EG : List (List Int) :=

  [[0, 0, 0, 0, 0, 0, 0, 0,
    178, 173, 158, 134, 147, 132, 165, 187,
    94, 100, 85, 67, 56, 53, 82, 84,
    32, 24, 13, 5, -2, 4, 17, 17,
    13, 9, -3, -7, -7, -8, 3, -1,
    4, 7, -6, 1, 0, -5, -1, -8,
    13, 8, 8, 10, 13, 0, 2, -7,
    0, 0, 0, 0, 0, 0, 0, 0],
   [-58, -38, -13, -28, -31, -27, -63, -99,
    -25, -8, -25, -2, -9, -25, -24, -52,
    -24, -20, 10, 9, -1, -9, -19, -41,
    -17, 3, 22, 22, 22, 11, 8, -18,
    -18, -6, 16, 25, 16, 17, 4, -18,
    -23, -3, -1, 15, 10, -3, -20, -22,
    -42, -20, -10, -5, -2, -20, -23, -44,
    -29, -51, -23, -15, -22, -18, -50, -64],
   [-14, -21, -11, -8, -7, -9, -17, -24,
    -8, -4, 7, -12, -3, -13, -4, -14,
    2, -8, 0, -1, -2, 6, 0, 4,
    -3, 9, 12, 9, 14, 10, 3, 2,
    -6, 3, 13, 19, 7, 10, -3, -9,
    -12, -3, 8, 10, 13, 3, -7, -15,
    -14, -18, -7, -1, 4, -9, -15, -27,
    -23, -9, -23, -5, -9, -16, -5, -17],
   [13, 10, 18, 15, 12, 12, 8, 5,
    11, 13, 13, 11, -3, 3, 8, 3,
    7, 7, 7, 5, 4, -3, -5, -3,
    4, 3, 13, 1, 2, 1, -1, 2,
    3, 5, 8, 4, -5, -6, -8, -11,
    -4, 0, -5, -1, -7, -12, -8, -16,
    -6, -6, 0, 2, -9, -9, -11, -3,
    -9, 2, 3, -1, -5, -13, 4, -20],
   [-9, 22, 22, 27, 27, 19, 10, 20,
    -17, 20, 32, 41, 58, 25, 30, 0,
    -20, 6, 9, 49, 47, 35, 19, 9,
    3, 22, 24, 45, 57, 40, 57, 36,
    -18, 28, 19, 47, 31, 34, 39, 23,
    -16, -27, 15, 6, 9, 17, 10, 5,
    -22, -23, -30, -16, -16, -23, -36, -32,
    -33, -28, -22, -43, -5, -32, -20, -41],
   [-74, -35, -18, -18, -11, 15, 4, -17,
    -12, 17, 14, 17, 17, 38, 23, 11,
    10, 17, 23, 15, 20, 45, 44, 13,
    -8, 22, 24, 27, 26, 33, 26, 3,
    -18, -4, 21, 24, 27, 23, 9, -11,
    -19, -3, 11, 21, 23, 16, 7, -9,
    -27, -11, 4, 13, 14, 4, -5, -17,
    -53, -34, -21, -11, -28, -14, -24, -43]]

/-- `BISHOP_PAIR` (`eval.rs`). -/
def BISHOP_PAIR : EvalScore := ⟨30, 40⟩

/-- `DOUBLED_PAWN` (`eval.rs`). -/
def DOUBLED_PAWN : EvalScore := ⟨-10, -20⟩

/-- `ISOLATED_PAWN` (`eval.rs`). -/
def ISOLATED_PAWN : EvalScore := ⟨-15, -10⟩

/-- `PASSED_PAWN_BONUS` (`eval.rs`), indexed by color-relative rank. -/
def PASSED_PAWN_BONUS : List EvalScore :=
  [⟨0, 0⟩, ⟨5, 10⟩, ⟨10, 20⟩, ⟨20, 40⟩, ⟨35, 70⟩, ⟨60, 120⟩, ⟨100, 200⟩, ⟨0, 0⟩]

/-- `ROOK_OPEN_FILE` (`eval.rs`). -/
def ROOK_OPEN_FILE : EvalScore := ⟨20, 10⟩

/-- `ROOK_SEMI_OPEN_FILE` (`eval.rs`). -/
def ROOK_SEMI_OPEN_FILE : EvalScore := ⟨10, 5⟩

/-- `Position::evaluate_pawns` (`eval.rs`): doubled, isolated, and passed
pawn terms, summed per pawn with a per-color sign.  The front span is built
exactly as the source builds it (for Black: `RANKS[7 - r]` for `r` below
the color-relative rank). -/
def Position.evaluate_pawns (p : Position) : EvalScore :=
  [Color.white, Color.black].foldl (fun score color =>
    let sign : Int := if color = Color.white then 1 else -1
    let our_pawns := p.piece_bb color .pawn
    let their_pawns := p.piece_bb color.flip .pawn
    (bbToList our_pawns).foldl (fun score sq =>
      let file := Square.file sq
      let rank := if color = Color.white then Square.rank sq else 7 - Square.rank sq
      let file_mask := FILES.getD file 0
      let adjacent := bbAdjacentFiles file_mask
      let score := if bbPopCount (our_pawns &&& file_mask) > 1 then
          ⟨score.mg + DOUBLED_PAWN.mg * sign, score.eg + DOUBLED_PAWN.eg * sign⟩
        else score
      let score := if our_pawns &&& adjacent == 0 then
          ⟨score.mg + ISOLATED_PAWN.mg * sign, score.eg + ISOLATED_PAWN.eg * sign⟩
        else score
      let front_span :=
        (match color with
         | .white => ((List.range 8).filter (fun r => rank + 1 ≤ r)).foldl
             (fun s r => s ||| RANKS.getD r 0) 0
         | .black => (List.range rank).foldl
             (fun s r => s ||| RANKS.getD (7 - r) 0) 0) &&& (file_mask ||| adjacent)
      if their_pawns &&& front_span == 0 then
        let b := PASSED_PAWN_BONUS.getD rank ⟨0, 0⟩
        ⟨score.mg + b.mg * sign, score.eg + b.eg * sign⟩
      else score) score) ⟨0, 0⟩

/-- `Position::evaluate_rooks` (`eval.rs`): open / semi-open file bonus. -/
def Position.evaluate_rooks (p : Position) : EvalScore :=
  [Color.white, Color.black].foldl (fun score color =>
    let sign : Int := if color = Color.white then 1 else -1
    let our_pawns := p.piece_bb color .pawn
    let their_pawns := p.piece_bb color.flip .pawn
    let all_pawns := our_pawns ||| their_pawns
    (bbToList (p.piece_bb color .rook)).foldl (fun score sq =>
      let file_mask := FILES.getD (Square.file sq) 0
      if all_pawns &&& file_mask == 0 then
        ⟨score.mg + ROOK_OPEN_FILE.mg * sign, score.eg + ROOK_OPEN_FILE.eg * sign⟩
      else if our_pawns &&& file_mask == 0 then
        ⟨score.mg + ROOK_SEMI_OPEN_FILE.mg * sign, score.eg + ROOK_SEMI_OPEN_FILE.eg * sign⟩
      else score) score) ⟨0, 0⟩

/-- `Position::evaluate` (`eval.rs`): material + PSQT + pawn structure +
bishop pair + rook files, tapered by game phase, from the side-to-move's
perspective. -/
def Position.evaluate (p : Position) : Int :=
  let matPsqt := [Color.white, Color.black].foldl (fun (acc : EvalScore × Int) color =>
    let sign : Int := if color = Color.white then 1 else -1
    pieceTypeList.foldl (fun (acc : EvalScore × Int) pt =>
      let bb := p.piece_bb color pt
      let count : Int := bbPopCount bb
      let v := PIECE_VALUES pt
      let score := acc.1
      let score := ⟨score.mg + v.mg * (sign * count), score.eg + v.eg * (sign * count)⟩
      let score := (bbToList bb).foldl (fun (score : EvalScore) sq =>
        let psqt_sq := if color = Color.white then sq else Square.flip_rank sq
        ⟨score.mg + sign * ((PSQT_MG.getD pt.index []).getD psqt_sq 0),
         score.eg + sign * ((PSQT_EG.getD pt.index []).getD psqt_sq 0)⟩) score
      (score, acc.2 + PHASE_VALUES pt * count)) acc) (⟨0, 0⟩, 0)
  let score := matPsqt.1
  let phase := matPsqt.2
  let pw := p.evaluate_pawns
  let score : EvalScore := ⟨score.mg + pw.mg, score.eg + pw.eg⟩
  let score := if bbPopCount (p.piece_bb .white .bishop) ≥ 2 then
      ⟨score.mg + BISHOP_PAIR.mg, score.eg + BISHOP_PAIR.eg⟩ else score
  let score := if bbPopCount (p.piece_bb .black .bishop) ≥ 2 then
      ⟨score.mg - BISHOP_PAIR.mg, score.eg - BISHOP_PAIR.eg⟩ else score
  let rk := p.evaluate_rooks
  let score : EvalScore := ⟨score.mg + rk.mg, score.eg + rk.eg⟩
  let mg_phase := min phase TOTAL_PHASE
  let eg_phase := TOTAL_PHASE - mg_phase
  let tapered := rustDiv (score.mg * mg_phase + score.eg * eg_phase) TOTAL_PHASE
  if p.side_to_move = Color.white then tapered else -tapered

/-! ## `ordering.rs`: move-ordering scores and heuristics -/

/-- `TT_MOVE_SCORE` (`ordering.rs`). -/
def TT_MOVE_SCORE : Int := 10000000

/-- `GOOD_CAPTURE_BASE` (`ordering.rs`). -/
def GOOD_CAPTURE_BASE : Int := 8000000

/-- `KILLER_SCORE_1` (`ordering.rs`). -/
def KILLER_SCORE_1 : Int := 6000000

/-- `KILLER_SCORE_2` (`ordering.rs`). -/
def KILLER_SCORE_2 : Int := 5000000

/-- `COUNTER_MOVE_SCORE` (`ordering.rs`). -/
def COUNTER_MOVE_SCORE : Int := 4000000

/-- `BAD_CAPTURE_BASE` (`ordering.rs`). -/
def BAD_CAPTURE_BASE : Int := -2000000

/-- `MAX_PLY` (`ordering.rs`). -/
def MAX_PLY : Nat := 128

/-- `SearchHeuristics` (`ordering.rs`): the fixed tables become total
functions over their index domains. -/
structure SearchHeuristics where
  killers : Nat → Nat → Move
  history : Nat → Nat → Nat → Int
  countermoves : Nat → Nat → Move
  prev_move : Move

/-- `SearchHeuristics::new`: all-null tables. -/
def SearchHeuristics.new : SearchHeuristics :=
  { killers := fun _ _ => Move.NULL
    history := fun _ _ _ => 0
    countermoves := fun _ _ => Move.NULL
    prev_move := Move.NULL }

/-- `SearchHeuristics::update_killer` (`ordering.rs`). -/
def SearchHeuristics.update_killer (h : SearchHeuristics) (mv : Move) (ply : Nat) : SearchHeuristics :=
  if MAX_PLY ≤ ply then h
  else if mv.is_capture then h
  else if h.killers ply 0 == mv then h
  else
    { h with killers := fun p i =>
        if p = ply then (if i = 0 then mv else if i = 1 then h.killers ply 0 else h.killers p i)
        else h.killers p i }

/-- `SearchHeuristics::update_history` (`ordering.rs`): gravity-bounded
history counter update (`i32` division truncates toward zero). -/
def SearchHeuristics.update_history (h : SearchHeuristics) (c : Color) (mv : Move)
    (depth : Int) (is_good : Bool) : SearchHeuristics :=
  if mv.is_capture || mv.is_promotion then h
  else
    let fromSq := mv.from_sq
    let toSq := mv.to_sq
    let bonus := if is_good then depth * depth else -(depth * depth)
    let old := h.history c.index fromSq toSq
    let newVal := old + bonus - rustDiv (old * |bonus|) 16384
    { h with history := fun ci f t =>
        if ci = c.index ∧ f = fromSq ∧ t = toSq then newVal else h.history ci f t }

/-- `SearchHeuristics::update_countermove` (`ordering.rs`). -/
def SearchHeuristics.update_countermove (h : SearchHeuristics) (prev mv : Move) : SearchHeuristics :=
  if prev.is_null || mv.is_capture then h
  else
    let fromSq := prev.from_sq
    let toSq := prev.to_sq
    { h with countermoves := fun f t =>
        if f = fromSq ∧ t = toSq then mv else h.countermoves f t }

/-- `SearchHeuristics::get_history` (`ordering.rs`). -/
def SearchHeuristics.get_history (h : SearchHeuristics) (c : Color) (mv : Move) : Int :=
  h.history c.index mv.from_sq mv.to_sq

/-- `SearchHeuristics::is_killer` (`ordering.rs`). -/
def SearchHeuristics.is_killer (h : SearchHeuristics) (mv : Move) (ply : Nat) : Option Nat :=
  if MAX_PLY ≤ ply then none
  else if h.killers ply 0 == mv then some 0
  else if h.killers ply 1 == mv then some 1
  else none

/-- `SearchHeuristics::is_countermove` (`ordering.rs`). -/
def SearchHeuristics.is_countermove (h : SearchHeuristics) (prev mv : Move) : Bool :=
  if prev.is_null then false
  else h.countermoves prev.from_sq prev.to_sq == mv

/-- `MVV_LVA` (`ordering.rs`): `[victim][attacker]` table. -/
def MVV_LVA_TABLE : List (List Int) :=
  [[105, 104, 103, 102, 101, 100],
   [205, 204, 203, 202, 201, 200],
   [305, 304, 303, 302, 301, 300],
   [405, 404, 403, 402, 401, 400],
   [505, 504, 503, 502, 501, 500],
   [605, 604, 603, 602, 601, 600]]

/-- Lookup into `MVV_LVA`. -/
def MVV_LVA (victim attacker : PieceType) : Int :=
  (MVV_LVA_TABLE.getD victim.index []).getD attacker.index 0

/-- `score_move` (`ordering.rs`). -/
def score_move (p : Position) (mv tt_move : Move) (h : SearchHeuristics) (ply : Nat) : Int :=
  if mv == tt_move then TT_MOVE_SCORE
  else if mv.is_capture then
    let victimResult : Option PieceType :=
      if mv.is_en_passant then some .pawn
      else match p.piece_at mv.to_sq with
        | some piece => some piece.piece_type
        | none => none
    match victimResult with
    | none => 0
    | some victim =>
      match p.piece_at mv.from_sq with
      | none => 0
      | some attacker =>
        let mvv_lva := MVV_LVA victim attacker.piece_type
        if p.see_ge mv 0 then GOOD_CAPTURE_BASE + mvv_lva
        else BAD_CAPTURE_BASE + mvv_lva
  else if mv.is_promotion then
    GOOD_CAPTURE_BASE + see_piece_value mv.promotion_piece
  else
    match h.is_killer mv ply with
    | some 0 => KILLER_SCORE_1
    | some _ => KILLER_SCORE_2
    | none =>
      if h.is_countermove h.prev_move mv then COUNTER_MOVE_SCORE
      else h.get_history p.side_to_move mv

/-- `score_moves` (`ordering.rs`): pair every move in the list with its
ordering score (the `MoveList` score array, read back in order). -/
def score_moves (moves : List Move) (p : Position) (tt_move : Move)
    (h : SearchHeuristics) (ply : Nat) : List (Move × Int) :=
  moves.map (fun mv => (mv, score_move p mv tt_move h ply))

/-- `score_capture` (`ordering.rs`): MVV-LVA for quiescence ordering.  The
`expect` calls can only panic on malformed capture encodings, which the
capture generator never produces; missing mailbox entries score as 0 like
the search scorer. -/
def score_capture (p : Position) (mv : Move) : Int :=
  if mv.is_capture then
    let victim := if mv.is_en_passant then PieceType.pawn
      else ((p.piece_at mv.to_sq).getD (Piece.new .white .pawn)).piece_type
    let attacker := ((p.piece_at mv.from_sq).getD (Piece.new .white .pawn)).piece_type
    MVV_LVA victim attacker
  else if mv.is_promotion then see_piece_value mv.promotion_piece
  else 0

/-- `score_captures` (`ordering.rs`). -/
def score_captures (moves : List Move) (p : Position) : List (Move × Int) :=
  moves.map (fun mv => (mv, score_capture p mv))

/-- Swap two entries of a scored move list (`MoveList::swap`). -/
def listSwap (l : List (Move × Int)) (i j : Nat) : List (Move × Int) :=
  let vi := l.getD i (Move.NULL, 0)
  let vj := l.getD j (Move.NULL, 0)
  (l.set i vj).set j vi

/-- `pick_move` (`ordering.rs`): selection-sort step — find the best score
in the unpicked suffix (strict `>`, first maximum kept), swap it to
`start`, return it together with the permuted list. -/
def pick_move (l : List (Move × Int)) (start : Nat) : Move × List (Move × Int) :=
  let best := ((List.range l.length).drop (start + 1)).foldl
    (fun best i => if (l.getD i (Move.NULL, 0)).2 > (l.getD best (Move.NULL, 0)).2 then i else best)
    start
  let l := if best ≠ start then listSwap l start best else l
  ((l.getD start (Move.NULL, 0)).1, l)

/-! ## `tt.rs`: the transposition table -/

/-- `Bound` (`tt.rs`). -/
inductive Bound where
  | noBound
  | upper
  | lower
  | exact
deriving DecidableEq, Repr

/-- `TTEntry` (`tt.rs`): `score` holds the stored `i16` value, `depth` the
stored `i8` value, `key` the upper 32 bits of the hash, `age` a `u8`. -/
structure TTEntry where
  key : Nat
  best_move : Move
  score : Int
  depth : Int
  bound : Bound
  age : Nat
deriving DecidableEq, Repr

/-- `TTEntry::default`: the zeroed entry a fresh table is filled with. -/
def TTEntry.zero : TTEntry :=
  { key := 0, best_move := Move.NULL, score := 0, depth := 0, bound := .noBound, age := 0 }

/-- `TTEntry::MATE_SCORE` (`tt.rs`). -/
def TT_MATE_SCORE : Int := 30000

/-- `TTEntry::MAX_PLY` (`tt.rs`). -/
def TT_MAX_PLY : Int := 128

/-- `TTEntry::score_to_tt` (`tt.rs`): mate scores are shifted by the ply
before storing.  The `i16` additions wrap in release builds and `ply as
i16` truncates, which the explicit wraps model. -/
def score_to_tt (score : Int) (ply : Int) : Int :=
  if score ≥ TT_MATE_SCORE - TT_MAX_PLY then wrapI16 (score + asI16 ply)
  else if score ≤ -TT_MATE_SCORE + TT_MAX_PLY then wrapI16 (score - asI16 ply)
  else score

/-- `TTEntry::score_from_tt` (`tt.rs`): the reverse shift on retrieval. -/
def score_from_tt (score : Int) (ply : Int) : Int :=
  if score ≥ TT_MATE_SCORE - TT_MAX_PLY then wrapI16 (score - asI16 ply)
  else if score ≤ -TT_MATE_SCORE + TT_MAX_PLY then wrapI16 (score + asI16 ply)
  else score

/-- `TTEntry::is_valid` (`tt.rs`): upper-32-bit key check. -/
def TTEntry.is_valid (e : TTEntry) (hash : Nat) : Bool := e.key == hash >>> 32

/-- `TTEntry::depth_ok` (`tt.rs`): `self.depth >= depth as i8`. -/
def TTEntry.depth_ok (e : TTEntry) (depth : Int) : Bool := e.depth ≥ asI8 depth

/-- `TTEntry::adjusted_score` (`tt.rs`). -/
def TTEntry.adjusted_score (e : TTEntry) (ply : Int) : Int := score_from_tt e.score ply

/-- `TranspositionTable` (`tt.rs`): a power-of-two entry array with an
index mask and an age counter. -/
structure TranspositionTable where
  table : List TTEntry
  mask : Nat
  age : Nat
deriving DecidableEq, Repr

/-- `TranspositionTable::new` (`tt.rs`): `(size_mb * 2^20 / 16)` entries
rounded up to a power of two (1 for `size_mb = 0`). -/
def TranspositionTable.new (size_mb : Nat) : TranspositionTable :=
  let num_entries := nextPowerOfTwo (size_mb * 1024 * 1024 / 16)
  { table := List.replicate num_entries TTEntry.zero
    mask := num_entries - 1
    age := 0 }

/-- `TranspositionTable::index` (`tt.rs`): `hash & mask`. -/
def TranspositionTable.index (tt : TranspositionTable) (hash : Nat) : Nat :=
  hash &&& tt.mask

/-- `TranspositionTable::probe` (`tt.rs`). -/
def TranspositionTable.probe (tt : TranspositionTable) (hash : Nat) : Option TTEntry :=
  let e := tt.table.getD (tt.index hash) TTEntry.zero
  if e.is_valid hash then some e else none

/-- `TranspositionTable::store` (`tt.rs`): the replacement policy
(different key, different age, greater-or-equal depth, or an exact bound
replaces; otherwise only a null stored move is patched). -/
def TranspositionTable.store (tt : TranspositionTable) (hash : Nat) (depth : Int)
    (score : Int) (bound : Bound) (best_move : Move) (ply : Int) : TranspositionTable :=
  let idx := tt.index hash
  let existing := tt.table.getD idx TTEntry.zero
  let key := hash >>> 32
  let should_replace := existing.key != key || existing.age != tt.age ||
    decide (depth ≥ existing.depth) || bound == Bound.exact
  if should_replace then
    let e : TTEntry :=
      { key := key
        best_move := best_move
        score := score_to_tt score ply
        depth := asI8 depth
        bound := bound
        age := tt.age }
    { tt with table := tt.table.set idx e }
  else if !best_move.is_null && (existing.best_move.is_null) then
    { tt with table := tt.table.set idx { existing with best_move := best_move } }
  else tt

/-- `TranspositionTable::new_search` (`tt.rs`): wrapping `u8` age bump. -/
def TranspositionTable.new_search (tt : TranspositionTable) : TranspositionTable :=
  { tt with age := addU8 tt.age 1 }

/-! ## `search.rs`: search control state -/

/-- `INFINITY` (`search.rs`). -/
def INFINITY : Int := 32000

/-- `MATE_SCORE` (`search.rs`). -/
def MATE_SCORE : Int := 30000

/-- `MATE_BOUND` (`search.rs`): `MATE_SCORE - MAX_PLY`. -/
def MATE_BOUND : Int := MATE_SCORE - 128

/-- Clamp to the `i16` range (`saturating_add` / `saturating_sub` /
`saturating_mul` on `i16`). -/
def satI16 (x : Int) : Int := max (-32768) (min 32767 x)

/-- `SearchInfo` (`search.rs`).  The wall clock is abstracted: `stop_flag`
carries the value the atomic stop flag holds during the search (the claims
concern a flag that is already set, so a constant value suffices), and
`deadline` carries the truth value of `Instant::now() >= deadline` (time is
monotone, so once the deadline has passed every poll observes `true`). -/
structure SearchInfo where
  nodes : Nat
  stop_flag : Option Bool
  deadline : Option Bool
  depth_limit : Option Nat
  stopped : Bool
  heuristics : SearchHeuristics
  sel_depth : Nat

/-- `SearchInfo::new` (`search.rs`). -/
def SearchInfo.new : SearchInfo :=
  { nodes := 0
    stop_flag := none
    deadline := none
    depth_limit := none
    stopped := false
    heuristics := SearchHeuristics.new
    sel_depth := 0 }

/-- `SearchInfo::should_stop` (`search.rs`): sticky `stopped`, then the
external stop flag, then the deadline. -/
def SearchInfo.should_stop (i : SearchInfo) : Bool × SearchInfo :=
  if i.stopped then (true, i)
  else if i.stop_flag == some true then (true, { i with stopped := true })
  else if i.deadline == some true then (true, { i with stopped := true })
  else (false, i)

/-! ## `qsearch.rs`: quiescence search -/

/-- `MAX_QSEARCH_DEPTH` (`qsearch.rs`). -/
def MAX_QSEARCH_DEPTH : Nat := 10

/-- `DELTA_MARGIN` (`qsearch.rs`). -/
def DELTA_MARGIN : Int := 900

/-- The capture loop of `qsearch` (`qsearch.rs`), one recursion step per
list index; `qchild` is the recursive quiescence call at the next ply.
Returns `(score, info, returned)` where `returned` marks an early `return`
(timeout or beta cutoff) as opposed to falling off the loop. -/
def qsearchLoop
    (qchild : Position → Int → Int → Nat → SearchInfo → Int × SearchInfo)
    (p : Position) (stand_pat beta : Int) (qs_ply : Nat) :
    Nat → Nat → List (Move × Int) → Int → SearchInfo → Int × SearchInfo × Bool
  | 0, _, _, alpha, info => (alpha, info, false)
  | count + 1, i, moves, alpha, info =>
    if i ≥ moves.length then (alpha, info, false)
    else
      let picked := pick_move moves i
      let mv := picked.1
      let moves := picked.2
      if !(p.see_ge mv 0) then
        qsearchLoop qchild p stand_pat beta qs_ply count (i + 1) moves alpha info
      else
        let deltaSkip : Bool :=
          if !mv.is_promotion then
            match (if mv.is_en_passant then some (100 : Int)
                   else match p.piece_at mv.to_sq with
                        | some piece => some (see_piece_value piece.piece_type)
                        | none => none) with
            | none => true
            | some captured_value => stand_pat + captured_value + 200 < alpha
          else false
        if deltaSkip then
          qsearchLoop qchild p stand_pat beta qs_ply count (i + 1) moves alpha info
        else if !(p.is_legal mv) then
          qsearchLoop qchild p stand_pat beta qs_ply count (i + 1) moves alpha info
        else
          let new_pos := p.make_move mv
          let res := qchild new_pos (-beta) (-alpha) (qs_ply + 1) info
          let score := -res.1
          let info := res.2
          if info.stopped then (0, info, true)
          else if score ≥ beta then (score, info, true)
          else
            let alpha := if score > alpha then score else alpha
            qsearchLoop qchild p stand_pat beta qs_ply count (i + 1) moves alpha info

/-- `Position::qsearch` (`qsearch.rs`).  The `fuel` argument drives the
recursion; the source recursion is bounded by `MAX_QSEARCH_DEPTH`, so any
fuel above `MAX_QSEARCH_DEPTH + 1` makes the fuel-exhaustion branch
unreachable.  The TT parameter of the source is unused (`_tt`). -/
def Position.qsearch : Nat → Position → Int → Int → Nat → SearchInfo → Int × SearchInfo
  | 0, _, _, _, _, info => (0, info)
  | fuel + 1, p, alpha, beta, qs_ply, info =>
    let info := { info with nodes := info.nodes + 1 }
    let stopRes := if info.nodes &&& 2047 == 0 then info.should_stop else (false, info)
    let info := stopRes.2
    if stopRes.1 then (0, info)
    else
      let stand_pat := p.evaluate
      if stand_pat ≥ beta then (stand_pat, info)
      else if stand_pat + DELTA_MARGIN < alpha then (alpha, info)
      else
        let alpha := if stand_pat > alpha then stand_pat else alpha
        if qs_ply ≥ MAX_QSEARCH_DEPTH then (stand_pat, info)
        else
          let moves := score_captures p.generate_captures p
          let res := qsearchLoop (fun p' a b q i => Position.qsearch fuel p' a b q i)
            p stand_pat beta qs_ply moves.length 0 moves alpha info
          (res.1, res.2.1)

/-! ## `search.rs`: negamax -/

/-- The result bundle of one `negamax` call: the returned score plus the
states the Rust function mutates through `&mut` (info, TT, pv). -/
structure NegamaxOut where
  score : Int
  info : SearchInfo
  tt : TranspositionTable
  pv : List Move

/-- The per-move loop state of `negamax`. -/
structure NLoop where
  moves : List (Move × Int)
  i : Nat
  moves_searched : Nat
  alpha : Int
  best_score : Int
  best_move : Move
  pv : List Move
  local_pv : List Move
  info : SearchInfo
  tt : TranspositionTable
  earlyReturn : Option Int
  broke : Bool

/-- The move loop of `negamax` (`search.rs`): pick-max ordering, SEE
pruning of losing captures, PVS with late-move reductions and re-searches,
alpha/PV updates with the defensive move-color validation, and the killer /
history / countermove updates on a beta cutoff.  `recCall` is the recursive
`negamax` call one fuel step down (`lmr` is the reduction table). -/
def negamaxLoop
    (recCall : Position → Int → Nat → Int → Int → SearchInfo → TranspositionTable → Bool → NegamaxOut)
    (p : Position) (depth : Int) (ply : Nat) (beta : Int) (is_pv in_check : Bool)
    (lmr : Nat → Nat → Int) : Nat → NLoop → NLoop
  | 0, st => st
  | count + 1, st =>
    if st.broke ∨ st.earlyReturn.isSome ∨ st.i ≥ st.moves.length then st
    else
      let picked := pick_move st.moves st.i
      let mv := picked.1
      let moves := picked.2
      let st := { st with moves := moves }
      if !is_pv && st.moves_searched ≥ 2 && mv.is_capture && !(p.see_ge mv 0) then
        negamaxLoop recCall p depth ply beta is_pv in_check lmr count { st with i := st.i + 1 }
      else
        let new_pos := p.make_move mv
        -- (tt.prefetch is a cache hint with no semantic effect)
        let reduction : Int :=
          if st.moves_searched ≥ 4 && decide (depth ≥ 3) && !mv.is_tactical && !in_check &&
             !new_pos.is_in_check then
            let r := lmr (min depth 63).toNat (min st.moves_searched 63)
            let r := if !is_pv then r + 1 else r
            min r (depth - 1)
          else 0
        let searched :=
          if st.moves_searched == 0 then
            -- first move: full-window search that clears and fills local_pv
            let out := recCall new_pos (depth - 1) (ply + 1) (-beta) (-st.alpha) st.info st.tt is_pv
            (-out.score, out.info, out.tt, out.pv)
          else
            let out := recCall new_pos (depth - 1 - reduction) (ply + 1) (-st.alpha - 1) (-st.alpha)
              st.info st.tt false
            let score := -out.score
            let acc := (score, out.info, out.tt)
            let acc :=
              if acc.1 > st.alpha ∧ reduction > 0 then
                let out := recCall new_pos (depth - 1) (ply + 1) (-st.alpha - 1) (-st.alpha)
                  acc.2.1 acc.2.2 false
                (-out.score, out.info, out.tt)
              else acc
            if acc.1 > st.alpha ∧ acc.1 < beta then
              -- PV re-search: clears and fills local_pv
              let out := recCall new_pos (depth - 1) (ply + 1) (-beta) (-st.alpha) acc.2.1 acc.2.2 true
              (-out.score, out.info, out.tt, out.pv)
            else
              -- zero-window searches write into a throwaway vector, so the
              -- `local_pv` of the last filling search persists
              (acc.1, acc.2.1, acc.2.2, st.local_pv)
        let score := searched.1
        let info := searched.2.1
        let tt := searched.2.2.1
        let local_pv := searched.2.2.2
        let st := { st with info := info, tt := tt, local_pv := local_pv,
                            moves_searched := st.moves_searched + 1 }
        if st.info.stopped then { st with earlyReturn := some 0 }
        else
          let st :=
            if score > st.best_score then
              let st := { st with best_score := score, best_move := mv }
              if score > st.alpha then
                let st := { st with alpha := score }
                let mv_valid :=
                  match p.piece_at mv.from_sq with
                  | some piece => piece.color == p.side_to_move
                  | none => false
                let st := if mv_valid then { st with pv := mv :: local_pv } else st
                if score ≥ beta then
                  let h := st.info.heuristics
                  let h :=
                    if !mv.is_capture then
                      let h := h.update_killer mv ply
                      let h := h.update_history p.side_to_move mv depth true
                      h.update_countermove h.prev_move mv
                    else h
                  let h := ((List.range st.i).map (fun j => (st.moves.getD j (Move.NULL, 0)).1)).foldl
                    (fun h failed_mv =>
                      if !(Move.is_capture failed_mv) then
                        h.update_history p.side_to_move failed_mv depth false
                      else h) h
                  { st with info := { st.info with heuristics := h }, broke := true }
                else st
              else st
            else st
          negamaxLoop recCall p depth ply beta is_pv in_check lmr count { st with i := st.i + 1 }

/-- The TT-move validation test of `negamax` (`search.rs`): a probed move
passes when it is null or its source square holds a piece of the side to
move. -/
def ttMoveValid (p : Position) (mv : Move) : Bool :=
  if mv.is_null then true
  else match p.piece_at mv.from_sq with
    | some piece => piece.color == p.side_to_move
    | none => false

/-- The TT-move validation of `negamax` (`search.rs`): the probed entry's
move is kept only when it passes `ttMoveValid`; otherwise (or on a probe
miss) the null move is used. -/
def negamaxTTMove (p : Position) (tt_entry : Option TTEntry) : Move :=
  ((tt_entry.map TTEntry.best_move).filter (ttMoveValid p)).getD Move.NULL

/-- The TT cutoff decision of `negamax` (`search.rs`): at non-PV, non-root
nodes an entry of sufficient depth returns its ply-adjusted score when its
bound permits.  The decision never reads the entry's move. -/
def negamaxTTCutoff (tt_entry : Option TTEntry) (is_pv is_root : Bool)
    (depth ply alpha beta : Int) : Option Int :=
  if !is_pv && !is_root then
    match tt_entry with
    | some e =>
      if e.depth_ok depth then
        let score := e.adjusted_score ply
        match e.bound with
        | .exact => some score
        | .lower => if score ≥ beta then some score else none
        | .upper => if score ≤ alpha then some score else none
        | .noBound => none
      else none
    | none => none
  else none

/-- `Position::negamax` (`search.rs`).  `fuel` drives the recursion: the
source recursion is bounded by the `ply >= MAX_PLY` guard, so any fuel
above `MAX_PLY + 1 - ply` makes the fuel-exhaustion branch unreachable.
`lmr` abstracts `LMR_TABLE`, whose entries are computed with `f64`
arithmetic at build time; no theorem below depends on its values (the
evaluated paths never read it). -/
def Position.negamax : Nat → Position → Int → Nat → Int → Int → SearchInfo →
    TranspositionTable → Bool → (Nat → Nat → Int) → NegamaxOut
  | 0, _, _, _, _, _, info, tt, _, _ => ⟨0, info, tt, []⟩
  | fuel + 1, p, depth, ply, alpha, beta, info, tt, is_pv, lmr =>
    let info := if ply > info.sel_depth then { info with sel_depth := ply } else info
    let stopRes := if info.nodes &&& 4095 == 0 then info.should_stop else (false, info)
    let info := stopRes.2
    if stopRes.1 then ⟨0, info, tt, []⟩
    else
      let info := { info with nodes := info.nodes + 1 }
      let mating_score := MATE_SCORE - ply
      -- Mate distance pruning: only the `return alpha` arm of the source's
      -- block has an effect (`new_beta` is computed and discarded).
      if mating_score < beta ∧ mating_score ≤ alpha then ⟨alpha, info, tt, []⟩
      else if p.halfmove_clock ≥ 100 then ⟨0, info, tt, []⟩
      else
        let is_root := ply == 0
        let in_check := p.is_in_check
        let tt_entry := tt.probe p.hash
        let tt_move : Move := negamaxTTMove p tt_entry
        let cutoff : Option Int := negamaxTTCutoff tt_entry is_pv is_root depth ply alpha beta
        match cutoff with
        | some score => ⟨score, info, tt, []⟩
        | none =>
          if ply ≥ MAX_PLY then ⟨p.evaluate, info, tt, []⟩
          else if depth ≤ 0 then
            let q := Position.qsearch 12 p alpha beta 0 info
            ⟨q.1, q.2, tt, []⟩
          else
            let depth := if in_check ∧ ply < MAX_PLY / 2 then depth + 1 else depth
            let static_eval := if in_check then -INFINITY else p.evaluate
            if !is_pv && !in_check && decide (depth ≤ 7) &&
               decide (static_eval - 80 * depth ≥ beta) then
              ⟨static_eval - 80 * depth, info, tt, []⟩
            else
              let nullRes : Option NegamaxOut :=
                if !is_pv && !in_check && decide (depth ≥ 3) && decide (static_eval ≥ beta) &&
                   (p.piece_bb p.side_to_move .knight ||| p.piece_bb p.side_to_move .bishop |||
                    p.piece_bb p.side_to_move .rook ||| p.piece_bb p.side_to_move .queen) != 0 then
                  let r := 3 + rustDiv depth 4
                  let null_pos := p.make_null_move
                  let out := Position.negamax fuel null_pos (depth - 1 - r) (ply + 1)
                    (-beta) (-beta + 1) info tt false lmr
                  some { out with score := -out.score }
                else none
              let afterNull : Except NegamaxOut (SearchInfo × TranspositionTable) :=
                match nullRes with
                | some out =>
                  if out.info.stopped then Except.error ⟨0, out.info, out.tt, []⟩
                  else if out.score ≥ beta then
                    if out.score ≥ MATE_BOUND then Except.error ⟨beta, out.info, out.tt, []⟩
                    else Except.error ⟨out.score, out.info, out.tt, []⟩
                  else Except.ok (out.info, out.tt)
                | none => Except.ok (info, tt)
              match afterNull with
              | Except.error out => out
              | Except.ok (info, tt) =>
                let moves := p.generate_legal_moves
                if moves.isEmpty then
                  ⟨if in_check then -mating_score else 0, info, tt, []⟩
                else
                  let scored := score_moves moves p tt_move info.heuristics ply
                  let old_alpha := alpha
                  let st0 : NLoop :=
                    { moves := scored, i := 0, moves_searched := 0, alpha := alpha
                      best_score := -INFINITY, best_move := Move.NULL, pv := []
                      local_pv := [], info := info, tt := tt
                      earlyReturn := none, broke := false }
                  let st := negamaxLoop
                    (fun p' d pl a b i t pv_flag => Position.negamax fuel p' d pl a b i t pv_flag lmr)
                    p depth ply beta is_pv in_check lmr scored.length st0
                  match st.earlyReturn with
                  | some v => ⟨v, st.info, st.tt, st.pv⟩
                  | none =>
                    let bound :=
                      if st.best_score ≥ beta then Bound.lower
                      else if st.best_score > old_alpha then Bound.exact
                      else Bound.upper
                    let tt := st.tt.store p.hash depth st.best_score bound st.best_move ply
                    ⟨st.best_score, st.info, tt, st.pv⟩

/-! ## `search.rs`: iterative deepening -/

/-- `SearchResult` (`search.rs`). -/
structure SearchResult where
  best_move : Move
  score : Int
  depth : Nat
  nodes : Nat
  pv : List Move

/-- The state carried across iterative-deepening iterations. -/
structure IterState where
  best_move : Move
  best_score : Int
  pv : List Move
  info : SearchInfo
  tt : TranspositionTable

/-- The aspiration-window `loop` of `search` (`search.rs`): re-search with
widened bounds until the score lands strictly inside the window, the stop
conditions fire, or the fuel runs out (the fuel stands in for the unbounded
`loop`; the widening saturates, so real runs take few iterations).
Returns the updated state and whether the driver observed a stop. -/
def searchAspiration (p : Position) (depth : Nat) (lmr : Nat → Nat → Int) :
    Nat → Int → Int → Int → IterState → IterState × Bool
  | 0, _, _, _, st => (st, false)
  | fuel + 1, alpha, beta, delta, st =>
    let out := Position.negamax (MAX_PLY + 2) p depth 0 alpha beta st.info st.tt true lmr
    let score := out.score
    let st := { st with info := out.info, tt := out.tt }
    let stopRes := st.info.should_stop
    let st := { st with info := stopRes.2 }
    if stopRes.1 then (st, true)
    else if score ≤ alpha then
      let beta := rustDiv (alpha + beta) 2
      let alpha := max (satI16 (score - delta)) (-INFINITY)
      let delta := satI16 (delta * 2)
      searchAspiration p depth lmr fuel alpha beta delta st
    else if score ≥ beta then
      let beta := min (satI16 (score + delta)) INFINITY
      let delta := satI16 (delta * 2)
      searchAspiration p depth lmr fuel alpha beta delta st
    else
      let st := { st with best_score := score }
      let st :=
        if !out.pv.isEmpty then
          let pv_move := out.pv.getD 0 Move.NULL
          let valid :=
            match p.piece_at pv_move.from_sq with
            | some piece => piece.color == p.side_to_move
            | none => false
          if valid then { st with best_move := pv_move, pv := out.pv }
          else st
        else st
      (st, false)

/-- The `for depth in 1..=max_depth` loop of `search` (`search.rs`),
recursing over the remaining depths.  The UCI `info` progress line is
output only and is omitted. -/
def searchDeepen (p : Position) (lmr : Nat → Nat → Int) (max_depth : Nat) :
    Nat → IterState → IterState
  | 0, st => st
  | fuelD + 1, st =>
    let depth := max_depth - fuelD
    let (alpha, beta, delta) :=
      if depth ≥ 5 then
        (max (satI16 (st.best_score - 25)) (-INFINITY),
         min (satI16 (st.best_score + 25)) INFINITY, (25 : Int))
      else (-INFINITY, INFINITY, (25 : Int))
    let res := searchAspiration p depth lmr 64 alpha beta delta st
    let st := res.1
    if st.info.stopped then st
    else if |st.best_score| ≥ MATE_BOUND then st
    else searchDeepen p lmr max_depth fuelD st

/-- `Position::search` (`search.rs`): iterative deepening with aspiration
windows, then the defensive best-move/PV validation with its
first-legal-move fallback.  `stop_flag` and `deadline` are the abstracted
cancellation inputs of `SearchInfo`. -/
def Position.search (p : Position) (tt : TranspositionTable)
    (deadline : Option Bool) (depth_limit : Option Nat) (stop_flag : Option Bool)
    (lmr : Nat → Nat → Int) : SearchResult × TranspositionTable :=
  let info := { SearchInfo.new with
                  deadline := deadline
                  depth_limit := depth_limit
                  stop_flag := stop_flag }
  let tt := tt.new_search
  let max_depth := depth_limit.getD MAX_PLY
  let st0 : IterState :=
    { best_move := Move.NULL, best_score := -INFINITY, pv := [], info := info, tt := tt }
  let st := searchDeepen p lmr max_depth max_depth st0
  let needs_fallback :=
    (!st.best_move.is_null &&
      (match p.piece_at st.best_move.from_sq with
       | some piece => piece.color != p.side_to_move
       | none => true)) ||
    (!st.pv.isEmpty &&
      !(!st.best_move.is_null &&
        (match p.piece_at st.best_move.from_sq with
         | some piece => piece.color != p.side_to_move
         | none => true)) &&
      (match p.piece_at (st.pv.getD 0 Move.NULL).from_sq with
       | some piece => piece.color != p.side_to_move
       | none => true))
  let final :=
    if needs_fallback then
      let moves := p.generate_legal_moves
      if !moves.isEmpty then
        (moves.getD 0 Move.NULL, [moves.getD 0 Move.NULL])
      else (st.best_move, st.pv)
    else (st.best_move, st.pv)
  ({ best_move := final.1
     score := st.best_score
     depth := min max_depth MAX_PLY
     nodes := st.info.nodes
     pv := final.2 }, st.tt)

/-! ## `uci.rs`: the time-management arithmetic of `cmd_go` -/

/-- The time-limit computation of `UciEngine::cmd_go` (`uci.rs`, the
"Calculate time limit" block): `movetime` wins; `infinite` yields no
limit; otherwise the side-to-move's clock yields
`min(time/max(moves,1) + 3*inc/4, time.saturating_sub(100))`.  All the
arithmetic is `u64`: `inc * 3` and the `base + ...` sum wrap in release
builds (modelled by `wrap64`), and `Nat` subtraction is exactly
`saturating_sub`. -/
def cmd_go_time_limit (side_to_move : Color)
    (wtime btime winc binc : Option Nat) (movestogo : Option Nat)
    (movetime : Option Nat) (infinite : Bool) : Option Nat :=
  match movetime with
  | some mt => some mt
  | none =>
    if infinite then none
    else
      let ourPair := match side_to_move with
        | .white => (wtime, winc)
        | .black => (btime, binc)
      match ourPair.1 with
      | some time =>
        let inc := ourPair.2.getD 0
        let moves := movestogo.getD 30
        let base := time / max moves 1
        let total := wrap64 (base + wrap64 (inc * 3) / 4)
        let limit := min total (time - 100)
        some limit
      | none => none

/-! ## Claim support definitions -/

/-- The position parsed by `from_fen`; `none` when parsing errs or panics.
(`from_fen_ok s = some p` says exactly that `from_fen` returned `Ok(p)`.) -/
def from_fen_ok (s : List Char) : Option Position :=
  match from_fen s with
  | some (Except.ok p) => some p
  | _ => none

/-- Stand-in for `LMR_TABLE` (`search.rs`), whose entries are produced by
`f64` arithmetic at build time and are therefore outside this embedding;
every concrete evaluation below runs on paths that never read the table
(the reduction code requires `depth ≥ 3` and four searched moves, and the
evaluated searches never satisfy both). -/
def lmrZero : Nat → Nat → Int := fun _ _ => 0

/-- The FEN of claim C1's failing input: Black to move, in check from the
knight on d6, with a (FEN-supplied) en-passant square on c3. -/
def c1fen : List Char := "4k3/8/3N4/8/1pP5/8/8/7K b - c3 0 1".toList

/-- The position `from_fen` builds from `c1fen` (b4 = square 25, c3 = 18,
d6 = 43, e8 = 60). -/
def c1pos : Position :=
  { pieces := [[67108864, 8796093022208, 0, 0, 0, 128], [33554432, 0, 0, 0, 0, 1152921504606846976]]
    occupied := [8796160131200, 1152921504640401408]
    all_occupied := 1152930300800532608
    board := [
     none, none, none, none, none, none, none, some 5, none, none, none, none, none, none, none, none,
     none, none, none, none, none, none, none, none, none, some 8, some 0, none, none, none, none, none,
     none, none, none, none, none, none, none, none, none, none, none, some 1, none, none, none, none,
     none, none, none, none, none, none, none, none, none, none, none, none, some 13, none, none, none]
    side_to_move := .black
    castling := 0
    en_passant := some 18
    halfmove_clock := 0
    fullmove_number := 1
    hash := 15306910601957457409
    king_sq := [7, 60]
    checkers := 8796093022208 }

/-- The FEN of claim C2's failing input: the en-passant square c3 is set
but no white pawn stands on c4, so the en-passant "victim" does not
exist. -/
def c2fen : List Char := "4k3/8/8/8/1p6/8/8/4K3 b - c3 0 1".toList

/-- The position `from_fen` builds from `c2fen`. -/
def c2pos : Position :=
  { pieces := [[0, 0, 0, 0, 0, 16], [33554432, 0, 0, 0, 0, 1152921504606846976]]
    occupied := [16, 1152921504640401408]
    all_occupied := 1152921504640401424
    board := [
     none, none, none, none, some 5, none, none, none, none, none, none, none, none, none, none, none,
     none, none, none, none, none, none, none, none, none, some 8, none, none, none, none, none, none,
     none, none, none, none, none, none, none, none, none, none, none, none, none, none, none, none,
     none, none, none, none, none, none, none, none, none, none, none, none, some 13, none, none, none]
    side_to_move := .black
    castling := 0
    en_passant := some 18
    halfmove_clock := 0
    fullmove_number := 1
    hash := 12989552305176802548
    king_sq := [4, 60]
    checkers := 0 }

/-- The FEN of claim C8's failing input: the en-passant square c3 is set
but occupied by a white knight. -/
def c8fen : List Char := "4k3/8/8/8/1p6/2N5/8/4K3 b - c3 0 1".toList

/-- The position `from_fen` builds from `c8fen`. -/
def c8pos : Position :=
  { pieces := [[0, 262144, 0, 0, 0, 16], [33554432, 0, 0, 0, 0, 1152921504606846976]]
    occupied := [262160, 1152921504640401408]
    all_occupied := 1152921504640663568
    board := [
     none, none, none, none, some 5, none, none, none, none, none, none, none, none, none, none, none,
     none, none, some 1, none, none, none, none, none, none, some 8, none, none, none, none, none, none,
     none, none, none, none, none, none, none, none, none, none, none, none, none, none, none, none,
     none, none, none, none, none, none, none, none, none, none, none, none, some 13, none, none, none]
    side_to_move := .black
    castling := 0
    en_passant := some 18
    halfmove_clock := 0
    fullmove_number := 1
    hash := 8633639096970217210
    king_sq := [4, 60]
    checkers := 0 }

/-- The position `from_fen` builds back from
`to_fen (c8pos.make_move b4xc3)`: the white knight is gone. -/
def c8rt : Position :=
  { pieces := [[0, 0, 0, 0, 0, 16], [262144, 0, 0, 0, 0, 1152921504606846976]]
    occupied := [16, 1152921504607109120]
    all_occupied := 1152921504607109136
    board := [
     none, none, none, none, some 5, none, none, none, none, none, none, none, none, none, none, none,
     none, none, some 8, none, none, none, none, none, none, none, none, none, none, none, none, none,
     none, none, none, none, none, none, none, none, none, none, none, none, none, none, none, none,
     none, none, none, none, none, none, none, none, none, none, none, none, some 13, none, none, none]
    side_to_move := .white
    castling := 0
    en_passant := none
    halfmove_clock := 0
    fullmove_number := 2
    hash := 18246738604306036187
    king_sq := [4, 60]
    checkers := 0 }


/-- The FEN of the starting position. -/
def startFen : List Char := "rnbqkbnr/pppppppp/8/8/8/8/PPPPPPPP/RNBQKBNR w KQkq - 0 1".toList

/-- The starting position, as `from_fen` parses it. -/
def startPos : Position :=
  { pieces := [[65280, 66, 36, 129, 8, 16], [71776119061217280, 4755801206503243776, 2594073385365405696, 9295429630892703744, 576460752303423488, 1152921504606846976]]
    occupied := [65535, 18446462598732840960]
    all_occupied := 18446462598732906495
    board := [
     some 3, some 1, some 2, some 4, some 5, some 2, some 1, some 3, some 0, some 0, some 0, some 0, some 0, some 0, some 0, some 0,
     none, none, none, none, none, none, none, none, none, none, none, none, none, none, none, none,
     none, none, none, none, none, none, none, none, none, none, none, none, none, none, none, none,
     some 8, some 8, some 8, some 8, some 8, some 8, some 8, some 8, some 11, some 9, some 10, some 12, some 13, some 10, some 9, some 11]
    side_to_move := .white
    castling := 15
    en_passant := none
    halfmove_clock := 0
    fullmove_number := 1
    hash := 17459785036570864591
    king_sq := [4, 60]
    checkers := 0 }

/-- The FEN of claim C5's position: bare kings on e1 and e8. -/
def kvkFen : List Char := "4k3/8/8/8/8/8/8/4K3 w - - 0 1".toList

/-- The bare-kings position of claim C5, as `from_fen` parses it. -/
def kvkPos : Position :=
  { pieces := [[0, 0, 0, 0, 0, 16], [0, 0, 0, 0, 0, 1152921504606846976]]
    occupied := [16, 1152921504606846976]
    all_occupied := 1152921504606846992
    board := [
     none, none, none, none, some 5, none, none, none, none, none, none, none, none, none, none, none,
     none, none, none, none, none, none, none, none, none, none, none, none, none, none, none, none,
     none, none, none, none, none, none, none, none, none, none, none, none, none, none, none, none,
     none, none, none, none, none, none, none, none, none, none, none, none, some 13, none, none, none]
    side_to_move := .white
    castling := 0
    en_passant := none
    halfmove_clock := 0
    fullmove_number := 1
    hash := 13028318770308447127
    king_sq := [4, 60]
    checkers := 0 }

/-- The transposition-table move claim C5's counterexample plants: a quiet
move e2-e5 whose source square e2 is empty in `kvkPos`, so the validation
rejects it. -/
def c5move : Move := Move.quiet 12 28

/-- A one-entry table holding a deep exact entry for `kvkPos` whose stored
move is the invalid `c5move`. -/
def c5tt : TranspositionTable :=
  (TranspositionTable.new 0).store kvkPos.hash 5 1234 Bound.exact c5move 0

/-- The entry `c5tt.probe kvkPos.hash` returns. -/
def c5entry : TTEntry :=
  { key := kvkPos.hash >>> 32
    best_move := c5move
    score := 1234
    depth := 5
    bound := Bound.exact
    age := 0 }

/-- The FEN of claim C4's counterexample: White pawn f5 may capture the
black e5 pawn en passant; the black rook on e7 would attack the white king
on e4 through the emptied e-file, except that the capturing pawn lands on
e6 and blocks it. -/
def c4fen : List Char := "7k/4r3/8/4pP2/4K3/8/8/8 w - e6 0 1".toList

/-- The position from_fen builds from c4fen (f5 = square 37, e6 = 44, e5 = 36, e4 = 28, e7 = 52). -/
def c4pos : Position :=
  { pieces := [[137438953472, 0, 0, 0, 0, 268435456], [68719476736, 0, 0, 4503599627370496, 0, 9223372036854775808]]
    occupied := [137707388928, 9227875705201623040]
    all_occupied := 9227875842909011968
    board := [
     none, none, none, none, none, none, none, none, none, none, none, none, none, none, none, none,
     none, none, none, none, none, none, none, none, none, none, none, none, some 5, none, none, none,
     none, none, none, none, some 8, some 0, none, none, none, none, none, none, none, none, none, none,
     none, none, none, none, some 11, none, none, none, none, none, none, none, none, none, none, some 13]
    side_to_move := .white
    castling := 0
    en_passant := some 44
    halfmove_clock := 0
    fullmove_number := 1
    hash := 391790606191004933
    king_sq := [28, 63]
    checkers := 0 }


/-- The FEN of claim C4's second failing input: the white king on c3 sits
on a corrupted-table square; the black e5 pawn (which just double-pushed)
blocks the h8 bishop's diagonal to the king, and capturing it en passant
with fxe6 opens that diagonal. -/
def c4bFen : List Char := "k6b/8/8/4pP2/8/2K5/8/8 w - e6 0 1".toList

/-- The position from_fen builds from c4bFen (c3 = square 18, e5 = 36,
f5 = 37, e6 = 44, a8 = 56, h8 = 63). -/
def c4bPos : Position :=
  { pieces := [[137438953472, 0, 0, 0, 0, 262144], [68719476736, 0, 9223372036854775808, 0, 0, 72057594037927936]]
    occupied := [137439215616, 9295429699612180480]
    all_occupied := 9295429837051396096
    board := [
     none, none, none, none, none, none, none, none, none, none, none, none, none, none, none, none,
     none, none, some 5, none, none, none, none, none, none, none, none, none, none, none, none, none,
     none, none, none, none, some 8, some 0, none, none, none, none, none, none, none, none, none, none,
     none, none, none, none, none, none, none, none, some 13, none, none, none, none, none, none, some 10]
    side_to_move := .white
    castling := 0
    en_passant := some 44
    halfmove_clock := 0
    fullmove_number := 1
    hash := 2229739879511771057
    king_sq := [18, 56]
    checkers := 0 }

/-- The occupancy `is_ep_legal` tests for fxe6 in `c4bPos`: f5 and e5
cleared, e6 set. -/
def c4bEpOcc : Nat := bbSet (bbClear (bbClear c4bPos.all_occupied 37) 36) 44

/-- The en-passant safety test exactly as claim C4's words state it:
remove both the capturing pawn and the captured pawn from the occupancy
(without placing the capturing pawn on the destination) and require that
no enemy rook/queen or bishop/queen attacks the king under that reduced
occupancy.  Spec-modelled: this definition follows the claim's words, not
the code, for comparison against `Position.is_ep_legal`. -/
def claimEpSafe (p : Position) (fromSq ep_sq : Square) : Bool :=
  let us := p.side_to_move
  let them := us.flip
  let king_sq := p.kingSqOf us
  let captured_sq := i8AsU8 ((ep_sq : Int) + (if us = Color.white then -8 else 8))
  let occupied := bbClear (bbClear p.all_occupied fromSq) captured_sq
  rook_attacks king_sq occupied &&& p.orthogonal_sliders them == 0 &&
    bishop_attacks king_sq occupied &&& p.diagonal_sliders them == 0

/-- The per-move time allocation exactly as claim C9's words state it:
`min(t - 100, t/max(m,1) + 3*inc/4)` over the integers (the divisions on
the natural inputs are the claim's integer divisions).  Spec-modelled:
this definition follows the claim's words, not the code, for comparison
against `cmd_go_time_limit`. -/
def claimTimeAlloc (t inc m : Nat) : Int :=
  min ((t : Int) - 100) ((t / max m 1 + 3 * inc / 4 : Nat) : Int)
/-- C1: the claim states that every move produced by
`generate_legal_moves` leaves the mover's king unattacked after
`make_move`.  On the well-formed FEN `c1fen` (Black in check from a knight,
en-passant square set), the generator emits the en-passant capture b4xc3
(`is_ep_legal` re-checks sliders only, never the checking knight), and
after `make_move` the black king on e8 is still attacked by White — the
code violates the claim, which matches the generator's own documented
intent ("Generate all legal moves"). -/
theorem c1_generated_ep_leaves_king_attacked :
    from_fen_ok c1fen = some c1pos ∧
    c1pos.side_to_move = Color.black ∧
    Move.en_passant 25 18 ∈ c1pos.generate_legal_moves ∧
    (c1pos.make_move (Move.en_passant 25 18)).is_attacked_by
      ((c1pos.make_move (Move.en_passant 25 18)).kingSqOf Color.black) Color.white = true := by
  decide

/-- C2: the claim states that the stored Zobrist key always equals the
recomputed key after any `make_move` with a generated legal move, starting
from a well-formed FEN.  From `c2fen`, `generate_legal_moves` emits the
en-passant capture b4xc3 even though c4 is empty, and `apply_move`'s
en-passant branch XORs the white-pawn key of the empty square c4 out of the
hash while the bitboard clear is a no-op — the incremental key diverges
from the recomputed one, violating the invariant (and the code's own
`test_hash_consistency` intent). -/
theorem c2_hash_diverges_after_ghost_ep :
    from_fen_ok c2fen = some c2pos ∧
    c2pos.hash = c2pos.compute_hash ∧
    Move.en_passant 25 18 ∈ c2pos.generate_legal_moves ∧
    (c2pos.make_move (Move.en_passant 25 18)).hash ≠
      (c2pos.make_move (Move.en_passant 25 18)).compute_hash := by
  decide

/-- C8: the claim states the FEN round-trip `from_fen (to_fen P) = P` (on
all six FEN-carried components, bitboards included) for every position
reachable from a well-formed FEN by generated legal moves.  From `c8fen`
the generator emits the en-passant capture b4xc3 onto the occupied square
c3; `apply_move` overwrites the mailbox entry with the black pawn while the
white knight's bitboard still holds c3.  `to_fen` prints the mailbox, so
re-parsing loses the knight: the piece bitboards of the round-tripped
position differ from the original's. -/
theorem c8_roundtrip_loses_piece_after_ep_onto_occupied :
    from_fen_ok c8fen = some c8pos ∧
    Move.en_passant 25 18 ∈ c8pos.generate_legal_moves ∧
    from_fen_ok (to_fen (c8pos.make_move (Move.en_passant 25 18))) = some c8rt ∧
    c8rt.pieces ≠ (c8pos.make_move (Move.en_passant 25 18)).pieces ∧
    c8rt.board = (c8pos.make_move (Move.en_passant 25 18)).board := by
  decide

/-- C7: the claim states `from_fen` never aborts.  On the input
`"8K w - - 0 1"` the placement cursor advances to square 64 and `put_piece`
indexes `board[64]`, an out-of-bounds array access that panics in every
build profile (modelled as `none`); `from_fen` aborts instead of returning
a recoverable error. -/
theorem c7_from_fen_panics_on_overlong_rank :
    (from_fen "8K w - - 0 1".toList).isNone = true := by
  decide

/-- C3: the claim states `search` returns a non-null legal best move on
any position with one, even when the stop flag is already set or the
deadline has already passed (depth 1 of iterative deepening completing).
On the starting position (20 legal moves) with the stop flag preset, the
first `negamax` call polls the flag before searching any move, iterative
deepening aborts with zero nodes and no depth-1 result, the defensive
fallback does not fire (the best move is null and the PV empty), and
`search` returns the null move `0000`; a search whose deadline has already
passed behaves the same.  This violates the claim. -/
theorem c3_search_returns_null_with_preset_stop :
    from_fen_ok startFen = some startPos ∧
    startPos.generate_legal_moves.length = 20 ∧
    (startPos.search (TranspositionTable.new 0) none none (some true) lmrZero).1.best_move
      = Move.NULL ∧
    (startPos.search (TranspositionTable.new 0) none none (some true) lmrZero).1.nodes = 0 ∧
    (startPos.search (TranspositionTable.new 0) (some true) none none lmrZero).1.best_move
      = Move.NULL := by
  decide

/-- Claim C5's counterexample run: the table entry for `kvkPos` carries the
invalid move `c5move` (its source square e2 is empty), the validation
discards the move, yet `negamax` at a non-PV node still returns the
entry's stored score 1234 by TT cutoff, where the same call with an empty
table searches 17 nodes and returns 49 — the probe is not treated as a
miss. -/
theorem c5_counterexample_invalid_tt_move_entry_still_cuts :
    from_fen_ok kvkFen = some kvkPos ∧
    c5move.is_null = false ∧
    kvkPos.piece_at c5move.from_sq = none ∧
    c5tt.probe kvkPos.hash = some c5entry ∧
    negamaxTTMove kvkPos (c5tt.probe kvkPos.hash) = Move.NULL ∧
    (TranspositionTable.new 0).probe kvkPos.hash = none ∧
    (Position.negamax 130 kvkPos 1 1 (-INFINITY) INFINITY SearchInfo.new c5tt
      false lmrZero).score = 1234 ∧
    (Position.negamax 130 kvkPos 1 1 (-INFINITY) INFINITY SearchInfo.new
      (TranspositionTable.new 0) false lmrZero).score = 49 := by
  decide

/-- C5: the claim states an entry holding an invalid non-null move is
treated exactly as a probe miss.  Only the move is: when the stored move
fails the validation, `negamax` replaces it by the null move, but the TT
cutoff decision never reads the stored move (it is invariant under
replacing it), and an exact-bound entry of sufficient depth still returns
its ply-adjusted score at non-PV, non-root nodes. -/
theorem c5_invalid_tt_move_discarded_but_entry_still_cuts
    (p : Position) (e : TTEntry)
    (hinv : ttMoveValid p e.best_move = false) :
    negamaxTTMove p (some e) = Move.NULL ∧
    (∀ mv is_pv is_root depth ply alpha beta,
      negamaxTTCutoff (some { e with best_move := mv }) is_pv is_root depth ply alpha beta =
        negamaxTTCutoff (some e) is_pv is_root depth ply alpha beta) ∧
    (∀ depth ply alpha beta, e.depth_ok depth = true → e.bound = Bound.exact →
      negamaxTTCutoff (some e) false false depth ply alpha beta =
        some (e.adjusted_score ply)) := by
  refine ⟨?_, ?_, ?_⟩
  · simp [negamaxTTMove, Option.filter, hinv]
  · intro mv is_pv is_root depth ply alpha beta
    rfl
  · intro depth ply alpha beta hd hb
    simp [negamaxTTCutoff, hd, hb]

/-- Witness for the C5 theorem at the concrete position and entry of the
counterexample. -/
theorem c5_invalid_tt_move_witness :
    ttMoveValid kvkPos c5entry.best_move = false ∧
    negamaxTTMove kvkPos (some c5entry) = Move.NULL ∧
    negamaxTTCutoff (some c5entry) false false 1 1 (-INFINITY) INFINITY =
      some (c5entry.adjusted_score 1) :=
  ⟨by decide,
   (c5_invalid_tt_move_discarded_but_entry_still_cuts kvkPos c5entry (by decide)).1,
   (c5_invalid_tt_move_discarded_but_entry_still_cuts kvkPos c5entry (by decide)).2.2
     1 1 (-INFINITY) INFINITY (by decide) rfl⟩

/-- Claim C6's counterexample: the round-trip fails at `s = 32767, ply = 1`
(the stored `i16` addition wraps to `-32768`) and at `s = 29872,
ply = 40000` (`ply as i16` truncates), refuting the unconditional claim. -/
theorem c6_counterexample_roundtrip_overflow :
    score_from_tt (score_to_tt 32767 1) 1 ≠ 32767 ∧
    score_from_tt (score_to_tt 29872 40000) 40000 ≠ 29872 := by
  decide

/-- C6: the claim states `score_from_tt (score_to_tt s ply) ply = s` for
every score and ply.  That fails when the `i16` arithmetic wraps (see the
counterexample); it holds for every score the search produces (scores lie
within `[-INFINITY, INFINITY] = [-32000, 32000]`) and every ply within
`[0, MAX_PLY] = [0, 128]`. -/
theorem c6_tt_score_roundtrip_in_range (s ply : Int)
    (h1 : -32000 ≤ s) (h2 : s ≤ 32000) (h3 : 0 ≤ ply) (h4 : ply ≤ 128) :
    score_from_tt (score_to_tt s ply) ply = s := by
  simp only [score_to_tt, score_from_tt, wrapI16, asI16, TT_MATE_SCORE, TT_MAX_PLY]
  split_ifs <;> omega

/-- Witness for the C6 theorem at a mate score within range. -/
theorem c6_tt_score_roundtrip_witness :
    (-32000 : Int) ≤ 29999 ∧ (29999 : Int) ≤ 32000 ∧ (0 : Int) ≤ 3 ∧ (3 : Int) ≤ 128 ∧
    score_from_tt (score_to_tt 29999 3) 3 = 29999 :=
  ⟨by decide, by decide, by decide, by decide,
   c6_tt_score_roundtrip_in_range 29999 3 (by decide) (by decide) (by decide) (by decide)⟩

/-- Claim C9's counterexample: with 0 ms on the clock and a 200 ms
increment the code allocates `min(0/30 + 150, 0.saturating_sub(100)) = 0`
ms, while the claim's formula `min(t - 100, t/max(m,1) + 3*inc/4)` yields
`-100`. -/
theorem c9_counterexample_zero_clock :
    cmd_go_time_limit Color.white (some 0) none (some 200) none none none false = some 0 ∧
    claimTimeAlloc 0 200 30 = -100 ∧
    (0 : Int) ≠ -100 := by
  decide

/-- C9: the claim states the limit is `min(t - 100, t/max(m,1) + 3*inc/4)`;
the code computes `t.saturating_sub(100)`, not `t - 100`, so for every
in-range clock `t`, increment `inc` and moves-to-go `m` whose `u64`
intermediates `inc * 3` and `t/max(m,1) + 3*inc/4` do not overflow
(either side to move), the limit is the claim's value clamped to zero —
which differs from the claim exactly when `t < 100` (see the
counterexample).  Outside those bounds the release-mode `u64` arithmetic
wraps and neither formula applies. -/
theorem c9_time_limit_is_saturated_claim_formula (t inc m : Nat)
    (ht : t < 2 ^ 64) (hinc : inc * 3 < 2 ^ 64)
    (hsum : t / max m 1 + inc * 3 / 4 < 2 ^ 64) :
    cmd_go_time_limit Color.white (some t) none (some inc) none (some m) none false =
      some (max (claimTimeAlloc t inc m) 0).toNat ∧
    cmd_go_time_limit Color.black none (some t) none (some inc) (some m) none false =
      some (max (claimTimeAlloc t inc m) 0).toNat := by
  have hW : cmd_go_time_limit Color.white (some t) none (some inc) none (some m) none false =
      some (min (wrap64 (t / max m 1 + wrap64 (inc * 3) / 4)) (t - 100)) := rfl
  have hB : cmd_go_time_limit Color.black none (some t) none (some inc) (some m) none false =
      some (min (wrap64 (t / max m 1 + wrap64 (inc * 3) / 4)) (t - 100)) := rfl
  have e1 : wrap64 (inc * 3) = inc * 3 := Nat.mod_eq_of_lt hinc
  rw [hW, hB, e1]
  have e2 : wrap64 (t / max m 1 + inc * 3 / 4) = t / max m 1 + inc * 3 / 4 :=
    Nat.mod_eq_of_lt hsum
  rw [e2, claimTimeAlloc, show 3 * inc = inc * 3 from Nat.mul_comm 3 inc]
  generalize t / max m 1 + inc * 3 / 4 = A
  constructor <;>
  · refine congrArg some ?_
    simp only [Nat.min_def, Int.min_def, Int.max_def]
    split_ifs <;> omega

/-- Witness for the C9 theorem at an everyday clock: one second plus a
200 ms increment. -/
theorem c9_time_limit_witness :
    (1000 : Nat) < 2 ^ 64 ∧ (200 : Nat) * 3 < 2 ^ 64 ∧
    (1000 : Nat) / max 30 1 + 200 * 3 / 4 < 2 ^ 64 ∧
    cmd_go_time_limit Color.white (some 1000) none (some 200) none (some 30) none false =
      some (max (claimTimeAlloc 1000 200 30) 0).toNat :=
  ⟨by decide, by decide, by decide,
   (c9_time_limit_is_saturated_claim_formula 1000 200 30 (by decide) (by decide)
     (by decide)).1⟩

/-- Reading a just-written cell of `List.set` (helper for claim C10). -/
theorem list_getD_set_self {A : Type} (xs : List A) (n : Nat) (a d : A)
    (h : n < xs.length) : (xs.set n a).getD n d = a := by
  induction xs generalizing n with
  | nil => simp at h
  | cons x xs ih =>
    cases n with
    | zero => rfl
    | succ n => simpa using ih n (by simpa using h)

/-- Reading any other cell of `List.set` (helper for claim C10). -/
theorem list_getD_set_ne {A : Type} (xs : List A) (n i : Nat) (a d : A)
    (h : i ≠ n) : (xs.set n a).getD i d = xs.getD i d := by
  induction xs generalizing n i with
  | nil => rfl
  | cons x xs ih =>
    cases n with
    | zero =>
      cases i with
      | zero => exact absurd rfl h
      | succ i => rfl
    | succ n =>
      cases i with
      | zero => rfl
      | succ i => simpa using ih n i (fun e => h (by rw [e]))

/-- C10: the claim states `MoveList::push` and `push_scored` require
`len < 256`; under that precondition they write the move (and score) at
index `len`, increment `len` by one and leave every earlier move and score
unchanged, and at `len = 256` the array access is out of bounds (the
panic is modelled as `none`). -/
theorem c10_movelist_push_contract (l : MoveList) (mv : Move) (score : Int)
    (hm : l.moves.length = MAX_MOVES) (hs : l.scores.length = MAX_MOVES) :
    (l.len < MAX_MOVES →
      (l.push mv).map MoveList.len = some (l.len + 1) ∧
      (l.push mv).map (fun x => x.get l.len) = some mv ∧
      (l.push_scored mv score).map MoveList.len = some (l.len + 1) ∧
      (l.push_scored mv score).map (fun x => x.get l.len) = some mv ∧
      (l.push_scored mv score).map (fun x => x.scores.getD l.len 0) = some score ∧
      (∀ i, i < l.len →
        (l.push mv).map (fun x => x.get i) = some (l.get i) ∧
        (l.push_scored mv score).map (fun x => x.get i) = some (l.get i) ∧
        (l.push_scored mv score).map (fun x => x.scores.getD i 0) =
          some (l.scores.getD i 0))) ∧
    (MAX_MOVES ≤ l.len → l.push mv = none ∧ l.push_scored mv score = none) := by
  constructor
  · intro hlen
    simp only [MoveList.push, MoveList.push_scored, if_pos hlen, MoveList.get]
    refine ⟨rfl, ?_, rfl, ?_, ?_, ?_⟩
    · exact congrArg some (list_getD_set_self l.moves l.len mv Move.NULL (hm ▸ hlen))
    · exact congrArg some (list_getD_set_self l.moves l.len mv Move.NULL (hm ▸ hlen))
    · exact congrArg some (list_getD_set_self l.scores l.len score 0 (hs ▸ hlen))
    · intro i hi
      have hne : i ≠ l.len := Nat.ne_of_lt hi
      exact ⟨congrArg some (list_getD_set_ne l.moves l.len i mv Move.NULL hne),
             congrArg some (list_getD_set_ne l.moves l.len i mv Move.NULL hne),
             congrArg some (list_getD_set_ne l.scores l.len i score 0 hne)⟩
  · intro hge
    have : ¬ l.len < MAX_MOVES := Nat.not_lt.mpr hge
    simp [MoveList.push, MoveList.push_scored, this]

/-- Witness for the C10 theorem on the empty list. -/
theorem c10_movelist_push_witness :
    MoveList.new.moves.length = MAX_MOVES ∧
    MoveList.new.scores.length = MAX_MOVES ∧
    (MoveList.new.push 77).map MoveList.len = some 1 ∧
    (MoveList.new.push_scored 77 5).map (fun x => x.get 0) = some 77 ∧
    (MAX_MOVES ≤ MoveList.new.len → MoveList.new.push 77 = none) :=
  ⟨by simp [MoveList.new], by simp [MoveList.new],
   ((c10_movelist_push_contract MoveList.new 77 5 (by simp [MoveList.new])
      (by simp [MoveList.new])).1 (by decide)).1,
   ((c10_movelist_push_contract MoveList.new 77 5 (by simp [MoveList.new])
      (by simp [MoveList.new])).1 (by decide)).2.2.2.1,
   fun h => ((c10_movelist_push_contract MoveList.new 77 5 (by simp [MoveList.new])
      (by simp [MoveList.new])).2 h).1⟩

/-- C4: the claim states en passant is emitted if and only if no enemy
rook/queen or bishop/queen attacks the king once both pawns are removed
from the occupancy.  The program violates the claim.  In `c4bPos` the
compiled bishop table is corrupted: the source `bishop_mask` loops take
in ray-terminal edge squares, so c3's mask has 10 relevant bits where
`BISHOP_BITS` budgets 7, `init_bishop_attacks` hashes 1024 occupancy
subsets into 128 slots with later writes overwriting earlier ones, and
the entry the en-passant check reads for the post-capture occupancy
misses the h8 bishop entirely (the pre-capture entry happens to survive
intact, so the position state is uncorrupted).  The real `is_ep_legal`
therefore passes, the generator emits fxe6, and the move leaves the white
king attacked along the opened diagonal — by the claim (and the spec's
evident intent) it must not be emitted.  Independently, in `c4pos` the
code's slider check re-adds the capturing pawn on the destination square,
blocking the e7 rook, and emits fxe6 although the claim's
both-pawns-removed condition forbids it (that position has no diagonal
sliders, so its evaluation is exact even with the corrupted table). -/
theorem c4_corrupt_bishop_table_emits_illegal_ep :
    from_fen_ok c4bFen = some c4bPos ∧
    bishop_mask_src 18 ≠ bishop_mask 18 ∧
    bishop_mask_src 18 = 18049656063789585 ∧
    bbPopCount (bishop_mask_src 18) = 10 ∧
    BISHOP_BITS.getD 18 0 = 7 ∧
    bishop_attacks_tbl 18 c4bPos.all_occupied =
      bishop_attacks 18 c4bPos.all_occupied ∧
    bishop_attacks_tbl 18 c4bEpOcc &&& c4bPos.diagonal_sliders Color.black = 0 ∧
    bishop_attacks 18 c4bEpOcc &&& c4bPos.diagonal_sliders Color.black ≠ 0 ∧
    c4bPos.checkers = 0 ∧
    c4bPos.en_passant = some 44 ∧
    bbContains (pawn_attacks Color.black 44 &&&
      c4bPos.piece_bb Color.white PieceType.pawn) 37 = true ∧
    c4bPos.is_ep_legal_tbl 37 44 = true ∧
    claimEpSafe c4bPos 37 44 = false ∧
    (c4bPos.make_move (Move.en_passant 37 44)).is_attacked_by
      ((c4bPos.make_move (Move.en_passant 37 44)).kingSqOf Color.white)
      Color.black = true ∧
    from_fen_ok c4fen = some c4pos ∧
    Move.en_passant 37 44 ∈ c4pos.generate_legal_moves ∧
    claimEpSafe c4pos 37 44 = false := by
  decide

end Kai
